import Mathlib

/-!
The containerlab `destroy` command.

A shallow embedding of `cmd/destroy.go` (functions `destroyFn`, `destroyLab`,
`listContainers`).  The collaborators that the command calls (the lab builder,
the container runtime, the link resolver, the filesystem) are fields of a
`World` record acting on an abstract world state `σ`; every call the command
makes is recorded, in program order, in a trace of `Event`s.
-/

set_option autoImplicit false

namespace Containerlab

/-! ## Data model -/

/-- Go `error` value: `none` is `nil`, `some msg` is an error carrying `msg`. -/
abbrev GoError := Option String

/-- Mirror of `runtime.RuntimeConfig` as built in `destroy.go`. -/
structure RuntimeConfig where
  Debug : Bool
  Timeout : Nat
  GracefulShutdown : Bool
deriving DecidableEq, Repr

/-- The `clab.ClabOption` values that `destroy.go` constructs. -/
inductive ClabOption where
  | WithTimeout (d : Nat)
  | WithTopoPath (topo varsFile : String)
  | WithNodeFilter (nodeFilter : List String)
  | WithRuntime (name : String) (cfg : RuntimeConfig)
  | WithDebug (debug : Bool)
  | WithSkippedBindsPathsCheck
  | WithKeepMgmtNet
deriving DecidableEq, Repr

/-- Mirror of `types.GenericFilter` (the four fields `destroy.go` sets; an unset
`Match` is the Go zero value, the empty string). -/
structure GenericFilter where
  FilterType : String
  Field : String
  Operator : String
  Match : String
deriving DecidableEq, Repr

/-- Mirror of `runtime.GenericContainer`: only `Labels` (a `map[string]string`)
is read by `destroy.go`. -/
structure GenericContainer where
  Labels : List (String × String)
deriving DecidableEq, Repr

/-- Go map read `m[k]` on a `map[string]string`: the zero value `""` when the
key is absent. -/
def labelOf (m : List (String × String)) (k : String) : String :=
  match m.lookup k with
  | some v => v
  | none => ""

/-- Modelled from the spec: the type `clab.TopoPaths` is not part of the given
sources.  The spec describes the lab directory as a value the builder computes
by default and that can be overridden; it is the single field kept here. -/
structure TopoPaths where
  labDir : String
deriving DecidableEq, Repr

/-- Modelled from the spec: the type `clab.CLab` is not part of the given
sources.  These are the parts of a lab that `destroy.go` reads: `Config.Name`,
`Config.Mgmt.Bridge` and `TopoPaths`. -/
structure CLab where
  Name : String
  MgmtBridge : String
  TopoPaths : TopoPaths
deriving DecidableEq, Repr

/-- Modelled from the spec: `TopoPaths.TopologyLabDir()` returns the lab's
working directory. -/
def TopoPaths.TopologyLabDir (t : TopoPaths) : String := t.labDir

/-- One call made by the command to a collaborator, with the arguments it was
given (and, for `Destroy`, `RemoveAll` and `SetLabDir`, the error it returned). -/
inductive Event where
  | NewContainerLab (opts : List ClabOption)
  | ListContainers (c : CLab) (filter : List GenericFilter)
  | Glob (pattern : String)
  | RemoveAll (path : String) (err : GoError)
  | FileOrDirExists (path : String)
  | SetLabDir (path : String) (err : GoError)
  | SetMgmtNetUnderlyingBridge (bridge : String)
  | CreateNetwork (c : CLab)
  | ResolveLinks (c : CLab)
  | Destroy (c : CLab) (maxWorkers : Nat) (keepMgmtNet : Bool) (err : GoError)
deriving DecidableEq, Repr

/-- The package-level option variables read by `destroyFn` (`all`, `cleanup`,
`keepMgmtNet`, `maxWorkers` and the `common.*` variables). -/
structure Config where
  all : Bool
  cleanup : Bool
  keepMgmtNet : Bool
  Graceful : Bool
  Debug : Bool
  maxWorkers : Nat
  NodeFilter : List String
  Topo : String
  VarsFile : String
  Timeout : Nat
  Runtime : String
deriving DecidableEq, Repr

/-- The collaborators of the command, as functions on an abstract world state.
None of them is defined in the given sources; each is a parameter.

* `NewContainerLab`, `ListContainers`, `CreateNetwork`, `ResolveLinks`,
  `Destroy` : package `clab`;
* `SetMgmtNetUnderlyingBridge` : package `links`;
* `FileOrDirExists` : package `utils`;
* `Glob`, `RemoveAll`, `filepathDir`, `filepathJoin` : the Go standard library
  (`filepath.Glob` with its error dropped, `os.RemoveAll`, `filepath.Dir`,
  `filepath.Join`);
* `SetLabDirErr` : whether `TopoPaths.SetLabDir` fails on a path;
* `rangeOrder` : the order in which a Go `range` visits the entries of a map
  (unspecified by the language);
* `labelsContainerlab`, `labelsTopoFile`, `labelsNodeLabDir` : the constants
  `labels.Containerlab`, `labels.TopoFile`, `labels.NodeLabDir`. -/
structure World (σ : Type) where
  NewContainerLab : List ClabOption → σ → Except String CLab × σ
  ListContainers : CLab → List GenericFilter → σ → (List GenericContainer × GoError) × σ
  Glob : String → σ → List String × σ
  RemoveAll : String → σ → GoError × σ
  FileOrDirExists : String → σ → Bool × σ
  SetLabDirErr : String → σ → GoError × σ
  SetMgmtNetUnderlyingBridge : String → σ → GoError × σ
  CreateNetwork : CLab → σ → GoError × σ
  ResolveLinks : CLab → σ → GoError × σ
  Destroy : CLab → Nat → Bool → σ → GoError × σ
  filepathDir : String → String
  filepathJoin : String → String → String
  rangeOrder : List (String × String) → σ → List (String × String)
  labelsContainerlab : String
  labelsTopoFile : String
  labelsNodeLabDir : String

/-- Outcome of running a piece of the command: the value it returns, the world
it leaves, and the calls it made, oldest first. -/
structure Out (σ : Type) (α : Type) where
  val : α
  world : σ
  trace : List Event

variable {σ : Type}

/-! ## `listContainers` (destroy.go, lines 209-257) -/

/-- The options `listContainers` passes to `NewContainerLab` (lines 210-235). -/
def listOpts (cfg : Config) (topo : String) : List ClabOption :=
  let runtimeConfig : RuntimeConfig :=
    { Debug := cfg.Debug, Timeout := cfg.Timeout, GracefulShutdown := cfg.Graceful }
  let opts : List ClabOption :=
    [ ClabOption.WithRuntime cfg.Runtime runtimeConfig,
      ClabOption.WithTimeout cfg.Timeout,
      ClabOption.WithSkippedBindsPathsCheck ]
  if topo ≠ "" then opts ++ [ClabOption.WithTopoPath topo cfg.VarsFile] else opts

/-- Embedding of `listContainers`: the Go pair `([]GenericContainer, error)` is
returned as a pair, the `nil` slice being `[]`. -/
def listContainers (w : World σ) (cfg : Config) (topo : String) (s : σ) :
    Out σ (List GenericContainer × GoError) :=
  let opts := listOpts cfg topo
  -- filter to list all containerlab containers (lines 226-230)
  let filter : List GenericFilter :=
    [{ FilterType := "label", Field := w.labelsContainerlab, Operator := "exists", Match := "" }]
  match (w.NewContainerLab opts s).1 with
  | Except.error e => ⟨([], some e), (w.NewContainerLab opts s).2, [Event.NewContainerLab opts]⟩
  | Except.ok c =>
    let s1 := (w.NewContainerLab opts s).2
    -- when topo file is provided, filter containers by lab name (lines 242-249)
    let filter : List GenericFilter :=
      if topo ≠ "" then
        [{ FilterType := "label", Field := w.labelsContainerlab, Operator := "=", Match := c.Name }]
      else filter
    match (w.ListContainers c filter s1).1 with
    | (_, some e) =>
      ⟨([], some e), (w.ListContainers c filter s1).2,
        [Event.NewContainerLab opts, Event.ListContainers c filter]⟩
    | (containers, none) =>
      ⟨(containers, none), (w.ListContainers c filter s1).2,
        [Event.NewContainerLab opts, Event.ListContainers c filter]⟩

/-! ## The topology map (destroy.go, lines 65-67, 102-103, 115-118) -/

/-- Go map write `m[k] = v` on a map kept as a list of entries with distinct
keys: the value of an existing key is replaced, a new key gets a new entry. -/
def mapSet : List (String × String) → String → String → List (String × String)
  | [], k, v => [(k, v)]
  | (k0, v0) :: rest, k, v =>
    if k0 = k then (k0, v) :: rest else (k0, v0) :: mapSet rest k v

/-- Key written for a container: `Labels[labels.TopoFile]`. -/
def topoKey (w : World σ) (c : GenericContainer) : String :=
  labelOf c.Labels w.labelsTopoFile

/-- Value written for a container: `filepath.Dir(Labels[labels.NodeLabDir])`. -/
def topoVal (w : World σ) (c : GenericContainer) : String :=
  w.filepathDir (labelOf c.Labels w.labelsNodeLabDir)

/-- The loop of lines 115-118, started from the map `m`. -/
def collectToposFrom (w : World σ) :
    List GenericContainer → List (String × String) → List (String × String)
  | [], m => m
  | c :: rest, m => collectToposFrom w rest (mapSet m (topoKey w c) (topoVal w c))

/-- The map built in all-labs mode (lines 67 and 115-118). -/
def collectTopos (w : World σ) (containers : List GenericContainer) :
    List (String × String) :=
  collectToposFrom w containers []

/-! ## No container found in single-lab mode (destroy.go, lines 77-100) -/

/-- Lines 82-90: the search for a lab directory; `labDirs` is the value the
variable holds on entry (the `nil` slice declared at line 81). -/
def findLabDirs (w : World σ) (cfg : Config) (labDirs : List String) (s : σ) :
    Out σ (List String) :=
  if cfg.Topo ≠ "" then
    let topoDir := w.filepathDir cfg.Topo
    let pat := w.filepathJoin topoDir "clab-*"
    ⟨(w.Glob pat s).1, (w.Glob pat s).2, [Event.Glob pat]⟩
  else if labDirs.length = 0 then
    -- Look in the current directory
    ⟨(w.Glob "clab-*" s).1, (w.Glob "clab-*" s).2, [Event.Glob "clab-*"]⟩
  else ⟨labDirs, s, []⟩

/-- Lines 79-98: the best-effort search for a lab directory and the removal of
the first directory found. -/
def cleanupNoContainers (w : World σ) (cfg : Config) (s : σ) : Out σ Unit :=
  if cfg.cleanup = true then
    let found := findLabDirs w cfg [] s
    match found.val with
    | [] => ⟨(), found.world, found.trace⟩
    | d :: _ =>
      -- we only really care about the first found
      ⟨(), (w.RemoveAll d found.world).2,
        found.trace ++ [Event.RemoveAll d (w.RemoveAll d found.world).1]⟩
  else ⟨(), s, []⟩

/-! ## Preparing one lab (destroy.go, lines 122-178) -/

/-- The option list of lines 123-142. -/
def destroyOpts (cfg : Config) (topo : String) : List ClabOption :=
  let opts : List ClabOption :=
    [ ClabOption.WithTimeout cfg.Timeout,
      ClabOption.WithTopoPath topo cfg.VarsFile,
      ClabOption.WithNodeFilter cfg.NodeFilter,
      ClabOption.WithRuntime cfg.Runtime
        { Debug := cfg.Debug, Timeout := cfg.Timeout, GracefulShutdown := cfg.Graceful },
      ClabOption.WithDebug cfg.Debug,
      ClabOption.WithSkippedBindsPathsCheck ]
  if cfg.keepMgmtNet = true then opts ++ [ClabOption.WithKeepMgmtNet] else opts

/-- Modelled from the spec: `TopoPaths.SetLabDir` is not part of the given
sources.  The spec says the builder overrides its computed default lab
directory with the supplied value; whether the call fails is the parameter
`World.SetLabDirErr` (destroy.go checks the returned error). -/
def TopoPaths.SetLabDir (w : World σ) (t : TopoPaths) (p : String) (s : σ) :
    Out σ (TopoPaths × GoError) :=
  match (w.SetLabDirErr p s).1 with
  | some e => ⟨(t, some e), (w.SetLabDirErr p s).2, [Event.SetLabDir p (some e)]⟩
  | none => ⟨({ t with labDir := p }, none), (w.SetLabDirErr p s).2, [Event.SetLabDir p none]⟩

/-- Lines 150-158: adjust the lab directory of the freshly built lab `nc` when
`labdir` is non-empty and exists.  The `&&` is short-circuit: the filesystem is
consulted only for a non-empty `labdir`. -/
def adjustLabDir (w : World σ) (nc : CLab) (labdir : String) (s : σ) :
    Out σ (Except String CLab) :=
  if labdir ≠ "" then
    if (w.FileOrDirExists labdir s).1 = true then
      let r := TopoPaths.SetLabDir w nc.TopoPaths labdir (w.FileOrDirExists labdir s).2
      match r.val.2 with
      | some e => ⟨Except.error e, r.world, Event.FileOrDirExists labdir :: r.trace⟩
      | none =>
        ⟨Except.ok { nc with TopoPaths := r.val.1 }, r.world,
          Event.FileOrDirExists labdir :: r.trace⟩
    else ⟨Except.ok nc, (w.FileOrDirExists labdir s).2, [Event.FileOrDirExists labdir]⟩
  else ⟨Except.ok nc, s, []⟩

/-- Lines 160-175: management bridge, management network, links.  What these
calls change inside the lab object is part of the world state. -/
def resolveLab (w : World σ) (nc : CLab) (s : σ) : Out σ (Except String CLab) :=
  match (w.SetMgmtNetUnderlyingBridge nc.MgmtBridge s).1 with
  | some e =>
    ⟨Except.error e, (w.SetMgmtNetUnderlyingBridge nc.MgmtBridge s).2,
      [Event.SetMgmtNetUnderlyingBridge nc.MgmtBridge]⟩
  | none =>
    let s1 := (w.SetMgmtNetUnderlyingBridge nc.MgmtBridge s).2
    match (w.CreateNetwork nc s1).1 with
    | some e =>
      ⟨Except.error e, (w.CreateNetwork nc s1).2,
        [Event.SetMgmtNetUnderlyingBridge nc.MgmtBridge, Event.CreateNetwork nc]⟩
    | none =>
      let s2 := (w.CreateNetwork nc s1).2
      match (w.ResolveLinks nc s2).1 with
      | some e =>
        ⟨Except.error e, (w.ResolveLinks nc s2).2,
          [Event.SetMgmtNetUnderlyingBridge nc.MgmtBridge, Event.CreateNetwork nc,
            Event.ResolveLinks nc]⟩
      | none =>
        ⟨Except.ok nc, (w.ResolveLinks nc s2).2,
          [Event.SetMgmtNetUnderlyingBridge nc.MgmtBridge, Event.CreateNetwork nc,
            Event.ResolveLinks nc]⟩

/-- Body of the loop of lines 122-178 for one entry `(topo, labdir)`:
`Except.error e` is the `return err` of lines 147, 156, 162, 169, 174, and
`Except.ok nc` is the lab appended to `labs` at line 177. -/
def prepareLab (w : World σ) (cfg : Config) (topo labdir : String) (s : σ) :
    Out σ (Except String CLab) :=
  let opts := destroyOpts cfg topo
  match (w.NewContainerLab opts s).1 with
  | Except.error e =>
    ⟨Except.error e, (w.NewContainerLab opts s).2, [Event.NewContainerLab opts]⟩
  | Except.ok nc0 =>
    let a := adjustLabDir w nc0 labdir (w.NewContainerLab opts s).2
    match a.val with
    | Except.error e => ⟨Except.error e, a.world, Event.NewContainerLab opts :: a.trace⟩
    | Except.ok nc =>
      let r := resolveLab w nc a.world
      ⟨r.val, r.world, Event.NewContainerLab opts :: (a.trace ++ r.trace)⟩

/-- The loop of lines 122-178 over the entries in the order the `range` visits
them; `labs` is the slice built so far.  An error leaves the whole function. -/
def prepareLabs (w : World σ) (cfg : Config) :
    List (String × String) → List CLab → σ → Out σ (Except String (List CLab))
  | [], labs, s => ⟨Except.ok labs, s, []⟩
  | (topo, labdir) :: rest, labs, s =>
    match (prepareLab w cfg topo labdir s).val with
    | Except.error e =>
      ⟨Except.error e, (prepareLab w cfg topo labdir s).world,
        (prepareLab w cfg topo labdir s).trace⟩
    | Except.ok nc =>
      let r := prepareLabs w cfg rest (labs ++ [nc]) (prepareLab w cfg topo labdir s).world
      ⟨r.val, r.world, (prepareLab w cfg topo labdir s).trace ++ r.trace⟩

/-! ## Teardown (destroy.go, lines 180-205) -/

/-- Embedding of `destroyLab` (lines 203-205). -/
def destroyLab (w : World σ) (cfg : Config) (c : CLab) (s : σ) : Out σ GoError :=
  ⟨(w.Destroy c cfg.maxWorkers cfg.keepMgmtNet s).1,
    (w.Destroy c cfg.maxWorkers cfg.keepMgmtNet s).2,
    [Event.Destroy c cfg.maxWorkers cfg.keepMgmtNet
      (w.Destroy c cfg.maxWorkers cfg.keepMgmtNet s).1]⟩

/-- Body of the loop of lines 181-194 for one lab: the returned list is `errs`
after the iteration. -/
def teardownLab (w : World σ) (cfg : Config) (c : CLab) (errs : List String) (s : σ) :
    Out σ (List String) :=
  let d := destroyLab w cfg c s
  let errs1 : List String :=
    match d.val with
    | some e => errs ++ [e]
    | none => errs
  if cfg.cleanup = true then
    let dir := c.TopoPaths.TopologyLabDir
    ⟨errs1, (w.RemoveAll dir d.world).2,
      d.trace ++ [Event.RemoveAll dir (w.RemoveAll dir d.world).1]⟩
  else ⟨errs1, d.world, d.trace⟩

/-- The loop of lines 181-194; returns the final `errs`. -/
def teardownLabs (w : World σ) (cfg : Config) :
    List CLab → List String → σ → Out σ (List String)
  | [], errs, s => ⟨errs, s, []⟩
  | c :: rest, errs, s =>
    let t := teardownLab w cfg c errs s
    let r := teardownLabs w cfg rest t.val t.world
    ⟨r.val, r.world, t.trace ++ r.trace⟩

/-! ## `destroyFn` (destroy.go, lines 54-201) -/

/-- Lines 121-200: prepare a lab for every entry of `topos`, then tear the
prepared labs down and summarise. -/
def destroyTopos (w : World σ) (cfg : Config) (topos : List (String × String)) (s : σ) :
    Out σ GoError :=
  let p := prepareLabs w cfg (w.rangeOrder topos s) [] s
  match p.val with
  | Except.error e => ⟨some e, p.world, p.trace⟩
  | Except.ok labs =>
    let t := teardownLabs w cfg labs [] p.world
    ⟨if t.val.length ≠ 0 then
        some "error(s) occurred during the deletion. Check log messages"
      else none,
      t.world, p.trace ++ t.trace⟩

/-- Embedding of `destroyFn`.  Log calls are not modelled. -/
def destroyFn (w : World σ) (cfg : Config) (s : σ) : Out σ GoError :=
  -- cleanup doesn't make sense with node-filter (lines 56-58)
  if cfg.NodeFilter.length ≠ 0 ∧ cfg.cleanup = true then
    ⟨some "cleanup cannot be used with node-filter", s, []⟩
  else if cfg.all = false then
    -- case !all (lines 70-103)
    let lc := listContainers w cfg cfg.Topo s
    match lc.val.2 with
    | some e => ⟨some e, lc.world, lc.trace⟩
    | none =>
      match lc.val.1 with
      | [] =>
        let cl := cleanupNoContainers w cfg lc.world
        ⟨none, cl.world, lc.trace ++ cl.trace⟩
      | c0 :: _ =>
        let r := destroyTopos w cfg (mapSet [] (topoKey w c0) (topoVal w c0)) lc.world
        ⟨r.val, r.world, lc.trace ++ r.trace⟩
  else
    -- case all (lines 105-119)
    let lc := listContainers w cfg cfg.Topo s
    match lc.val.2 with
    | some e => ⟨some e, lc.world, lc.trace⟩
    | none =>
      match lc.val.1 with
      | [] => ⟨some "no containerlab labs found", lc.world, lc.trace⟩
      | c0 :: rest =>
        let r := destroyTopos w cfg (collectTopos w (c0 :: rest)) lc.world
        ⟨r.val, r.world, lc.trace ++ r.trace⟩

/-- The topology map `destroyFn` builds from a non-empty list of discovered
containers: line 102 in single-lab mode, lines 115-118 in all-labs mode. -/
def toposOf (w : World σ) (cfg : Config) (cnts : List GenericContainer) :
    List (String × String) :=
  if cfg.all = false then
    match cnts with
    | [] => []
    | c0 :: _ => mapSet [] (topoKey w c0) (topoVal w c0)
  else collectTopos w cnts

/-! ## Reading a trace -/

/-- The lab of a `Destroy` call. -/
def Event.destroyed : Event → Option CLab
  | Event.Destroy c _ _ _ => some c
  | _ => none

/-- The error returned by a `Destroy` call that failed. -/
def Event.destroyErr : Event → Option String
  | Event.Destroy _ _ _ (some e) => some e
  | _ => none

/-- The path of an `os.RemoveAll` call. -/
def Event.removed : Event → Option String
  | Event.RemoveAll p _ => some p
  | _ => none

/-- The pattern of a `filepath.Glob` call. -/
def Event.globbed : Event → Option String
  | Event.Glob p => some p
  | _ => none

/-- The option list of a `NewContainerLab` call. -/
def Event.newLab : Event → Option (List ClabOption)
  | Event.NewContainerLab o => some o
  | _ => none

/-- The filter list of a `ListContainers` call. -/
def Event.listed : Event → Option (List GenericFilter)
  | Event.ListContainers _ f => some f
  | _ => none

/-- The path of a `SetLabDir` call. -/
def Event.labDirSet : Event → Option String
  | Event.SetLabDir p _ => some p
  | _ => none

/-- The labs on which `Destroy` was called, in call order. -/
def destroyCalls (tr : List Event) : List CLab := tr.filterMap Event.destroyed

/-- The errors returned by the failed `Destroy` calls, in call order. -/
def destroyErrs (tr : List Event) : List String := tr.filterMap Event.destroyErr

/-- The paths on which `os.RemoveAll` was called, in call order. -/
def removedDirs (tr : List Event) : List String := tr.filterMap Event.removed

/-- The patterns given to `filepath.Glob`, in call order. -/
def globCalls (tr : List Event) : List String := tr.filterMap Event.globbed

/-- The option lists given to `NewContainerLab`, in call order. -/
def newLabCalls (tr : List Event) : List (List ClabOption) := tr.filterMap Event.newLab

/-- The filter lists given to `ListContainers`, in call order. -/
def listFilters (tr : List Event) : List (List GenericFilter) := tr.filterMap Event.listed

/-- The paths given to `SetLabDir`, in call order. -/
def labDirsSet (tr : List Event) : List String := tr.filterMap Event.labDirSet

/-- Discovery events: the two calls `listContainers` makes. -/
def Event.isDiscovery : Event → Bool
  | Event.NewContainerLab _ => true
  | Event.ListContainers _ _ => true
  | _ => false

/-- Build events: the calls of the loop of lines 122-178. -/
def Event.isBuild : Event → Bool
  | Event.NewContainerLab _ => true
  | Event.FileOrDirExists _ => true
  | Event.SetLabDir _ _ => true
  | Event.SetMgmtNetUnderlyingBridge _ => true
  | Event.CreateNetwork _ => true
  | Event.ResolveLinks _ => true
  | _ => false

/-! ## Expected call sequences -/

/-- The filter `listContainers` ends up with (lines 226-249), for the lab `c`
it built. -/
def listFilter (w : World σ) (topo : String) (c : CLab) : List GenericFilter :=
  if topo ≠ "" then
    [{ FilterType := "label", Field := w.labelsContainerlab, Operator := "=", Match := c.Name }]
  else
    [{ FilterType := "label", Field := w.labelsContainerlab, Operator := "exists", Match := "" }]

/-- The one pattern `findLabDirs` globs when called with the `nil` slice. -/
def globPattern (w : World σ) (cfg : Config) : String :=
  if cfg.Topo ≠ "" then w.filepathJoin (w.filepathDir cfg.Topo) "clab-*" else "clab-*"

/-- The calls of the teardown loop with `cleanup` set, for the given labs and
the errors returned by each lab's `Destroy` (first) and `os.RemoveAll`
(second): every lab's `Destroy` immediately followed by the removal of that
lab's directory. -/
def cleanupTeardownTrace (cfg : Config) : List CLab → List (GoError × GoError) → List Event
  | c :: cs, r :: rs =>
    Event.Destroy c cfg.maxWorkers cfg.keepMgmtNet r.1 ::
      Event.RemoveAll c.TopoPaths.TopologyLabDir r.2 :: cleanupTeardownTrace cfg cs rs
  | _, _ => []

/-- The calls of the teardown loop with `cleanup` unset, for the given labs and
the errors returned by each lab's `Destroy`. -/
def plainTeardownTrace (cfg : Config) : List CLab → List GoError → List Event
  | c :: cs, r :: rs =>
    Event.Destroy c cfg.maxWorkers cfg.keepMgmtNet r :: plainTeardownTrace cfg cs rs
  | _, _ => []

/-! ## Preparation and teardown in terms of the collaborators

The definitions of this section describe what the loops of lines 122-194 are
expected to do, directly in terms of the collaborators of `World`: which calls
are made, on which world each call acts, and which world each leaves. -/

/-- World left by lines 150-158 when they start in `s` (the world left by
`NewContainerLab`): `FileOrDirExists` runs for a non-empty `labdir`, and
`SetLabDir` after it when the directory exists. -/
def worldAfterAdjust (w : World σ) (labdir : String) (s : σ) : σ :=
  if labdir ≠ "" then
    if (w.FileOrDirExists labdir s).1 = true then
      (w.SetLabDirErr labdir (w.FileOrDirExists labdir s).2).2
    else (w.FileOrDirExists labdir s).2
  else s

/-- Calls of lines 150-158 started in `s`. -/
def adjustEvents (w : World σ) (labdir : String) (s : σ) : List Event :=
  if labdir ≠ "" then
    if (w.FileOrDirExists labdir s).1 = true then
      [Event.FileOrDirExists labdir,
        Event.SetLabDir labdir (w.SetLabDirErr labdir (w.FileOrDirExists labdir s).2).1]
    else [Event.FileOrDirExists labdir]
  else []

/-- Lines 150-158 started in `s` turn the lab `nc0` into `nc` without error:
when `labdir` is non-empty and exists, `SetLabDir` returned `nil` and `nc` is
`nc0` with `labdir` as its lab directory; otherwise `nc` is `nc0`. -/
def Adjusted (w : World σ) (labdir : String) (s : σ) (nc0 nc : CLab) : Prop :=
  (labdir ≠ "" ∧ (w.FileOrDirExists labdir s).1 = true →
      (w.SetLabDirErr labdir (w.FileOrDirExists labdir s).2).1 = none ∧
      nc = { nc0 with TopoPaths := { labDir := labdir } }) ∧
    (¬ (labdir ≠ "" ∧ (w.FileOrDirExists labdir s).1 = true) → nc = nc0)

/-- World in which `SetMgmtNetUnderlyingBridge` is called for an entry whose
preparation starts in `s`. -/
def worldBeforeMgmt (w : World σ) (cfg : Config) (topo labdir : String) (s : σ) : σ :=
  worldAfterAdjust w labdir (w.NewContainerLab (destroyOpts cfg topo) s).2

/-- World in which `CreateNetwork` is called on the lab `nc` of the entry. -/
def worldBeforeNetwork (w : World σ) (cfg : Config) (topo labdir : String) (s : σ)
    (nc : CLab) : σ :=
  (w.SetMgmtNetUnderlyingBridge nc.MgmtBridge (worldBeforeMgmt w cfg topo labdir s)).2

/-- World in which `ResolveLinks` is called on the lab `nc` of the entry. -/
def worldBeforeLinks (w : World σ) (cfg : Config) (topo labdir : String) (s : σ)
    (nc : CLab) : σ :=
  (w.CreateNetwork nc (worldBeforeNetwork w cfg topo labdir s nc)).2

/-- World left by the complete preparation of the lab `nc` of the entry. -/
def worldAfterBuild (w : World σ) (cfg : Config) (topo labdir : String) (s : σ)
    (nc : CLab) : σ :=
  (w.ResolveLinks nc (worldBeforeLinks w cfg topo labdir s nc)).2

/-- Every step of the preparation of the entry `(topo, labdir)` started in `s`
returns without error and the lab appended to `labs` is `nc`. -/
def BuildSucceeds (w : World σ) (cfg : Config) (topo labdir : String) (s : σ)
    (nc : CLab) : Prop :=
  ∃ nc0 : CLab, (w.NewContainerLab (destroyOpts cfg topo) s).1 = Except.ok nc0 ∧
    Adjusted w labdir (w.NewContainerLab (destroyOpts cfg topo) s).2 nc0 nc ∧
    (w.SetMgmtNetUnderlyingBridge nc.MgmtBridge (worldBeforeMgmt w cfg topo labdir s)).1
      = none ∧
    (w.CreateNetwork nc (worldBeforeNetwork w cfg topo labdir s nc)).1 = none ∧
    (w.ResolveLinks nc (worldBeforeLinks w cfg topo labdir s nc)).1 = none

/-- One of the five steps of the preparation of the entry `(topo, labdir)`
started in `s` returns the error `e`, the steps before it having succeeded. -/
inductive BuildFails (w : World σ) (cfg : Config) (topo labdir : String) (s : σ)
    (e : String) : Prop where
  | newContainerLab
      (h : (w.NewContainerLab (destroyOpts cfg topo) s).1 = Except.error e) :
      BuildFails w cfg topo labdir s e
  | setLabDir (nc0 : CLab)
      (h0 : (w.NewContainerLab (destroyOpts cfg topo) s).1 = Except.ok nc0)
      (h1 : labdir ≠ "")
      (h2 : (w.FileOrDirExists labdir (w.NewContainerLab (destroyOpts cfg topo) s).2).1 = true)
      (h : (w.SetLabDirErr labdir
        (w.FileOrDirExists labdir (w.NewContainerLab (destroyOpts cfg topo) s).2).2).1
          = some e) :
      BuildFails w cfg topo labdir s e
  | setMgmtNetUnderlyingBridge (nc0 nc : CLab)
      (h0 : (w.NewContainerLab (destroyOpts cfg topo) s).1 = Except.ok nc0)
      (ha : Adjusted w labdir (w.NewContainerLab (destroyOpts cfg topo) s).2 nc0 nc)
      (h : (w.SetMgmtNetUnderlyingBridge nc.MgmtBridge
        (worldBeforeMgmt w cfg topo labdir s)).1 = some e) :
      BuildFails w cfg topo labdir s e
  | createNetwork (nc0 nc : CLab)
      (h0 : (w.NewContainerLab (destroyOpts cfg topo) s).1 = Except.ok nc0)
      (ha : Adjusted w labdir (w.NewContainerLab (destroyOpts cfg topo) s).2 nc0 nc)
      (h1 : (w.SetMgmtNetUnderlyingBridge nc.MgmtBridge
        (worldBeforeMgmt w cfg topo labdir s)).1 = none)
      (h : (w.CreateNetwork nc (worldBeforeNetwork w cfg topo labdir s nc)).1 = some e) :
      BuildFails w cfg topo labdir s e
  | resolveLinks (nc0 nc : CLab)
      (h0 : (w.NewContainerLab (destroyOpts cfg topo) s).1 = Except.ok nc0)
      (ha : Adjusted w labdir (w.NewContainerLab (destroyOpts cfg topo) s).2 nc0 nc)
      (h1 : (w.SetMgmtNetUnderlyingBridge nc.MgmtBridge
        (worldBeforeMgmt w cfg topo labdir s)).1 = none)
      (h2 : (w.CreateNetwork nc (worldBeforeNetwork w cfg topo labdir s nc)).1 = none)
      (h : (w.ResolveLinks nc (worldBeforeLinks w cfg topo labdir s nc)).1 = some e) :
      BuildFails w cfg topo labdir s e

/-- Calls of the successful preparation of the lab `nc` of an entry: the lab
is built, its directory adjusted, then the management bridge, the management
network and the links are handled, in this order. -/
def buildEvents (w : World σ) (cfg : Config) (topo labdir : String) (s : σ) (nc : CLab) :
    List Event :=
  Event.NewContainerLab (destroyOpts cfg topo) ::
    (adjustEvents w labdir (w.NewContainerLab (destroyOpts cfg topo) s).2 ++
      [Event.SetMgmtNetUnderlyingBridge nc.MgmtBridge, Event.CreateNetwork nc,
        Event.ResolveLinks nc])

/-- The preparation of the entries, one after the other from the world `s`,
succeeds at every step and yields the labs `labs`, one per entry. -/
def AllBuildsSucceed (w : World σ) (cfg : Config) :
    List (String × String) → σ → List CLab → Prop
  | [], _, [] => True
  | (topo, labdir) :: rest, s, nc :: labs =>
    BuildSucceeds w cfg topo labdir s nc ∧
      AllBuildsSucceed w cfg rest (worldAfterBuild w cfg topo labdir s nc) labs
  | _, _, _ => False

/-- World left by the successful preparation of the entries as `labs`. -/
def worldAfterBuilds (w : World σ) (cfg : Config) :
    List (String × String) → σ → List CLab → σ
  | (topo, labdir) :: rest, s, nc :: labs =>
    worldAfterBuilds w cfg rest (worldAfterBuild w cfg topo labdir s nc) labs
  | _, s, _ => s

/-- Calls of the successful preparation of the entries as `labs`. -/
def allBuildEvents (w : World σ) (cfg : Config) :
    List (String × String) → σ → List CLab → List Event
  | (topo, labdir) :: rest, s, nc :: labs =>
    buildEvents w cfg topo labdir s nc ++
      allBuildEvents w cfg rest (worldAfterBuild w cfg topo labdir s nc) labs
  | _, _, _ => []

/-- World left by the teardown iteration of lab `c` started in `s`: `Destroy`
acts on `s`, and with `cleanup` set `os.RemoveAll` acts on what it leaves. -/
def worldAfterLab (w : World σ) (cfg : Config) (c : CLab) (s : σ) : σ :=
  if cfg.cleanup = true then
    (w.RemoveAll c.TopoPaths.TopologyLabDir
      (w.Destroy c cfg.maxWorkers cfg.keepMgmtNet s).2).2
  else (w.Destroy c cfg.maxWorkers cfg.keepMgmtNet s).2

/-- World left by the teardown of the labs, in order, from `s`. -/
def worldAfterLabs (w : World σ) (cfg : Config) : List CLab → σ → σ
  | [], s => s
  | c :: cs, s => worldAfterLabs w cfg cs (worldAfterLab w cfg c s)

/-- What `Destroy` returns for each lab when the labs are torn down in order
from `s`. -/
def destroyResults (w : World σ) (cfg : Config) : List CLab → σ → List GoError
  | [], _ => []
  | c :: cs, s =>
    (w.Destroy c cfg.maxWorkers cfg.keepMgmtNet s).1 ::
      destroyResults w cfg cs (worldAfterLab w cfg c s)

/-- What `os.RemoveAll` of each lab's directory returns when it is called on
the world its lab's `Destroy` left, the labs being torn down in order from
`s`. -/
def removeResults (w : World σ) (cfg : Config) : List CLab → σ → List GoError
  | [], _ => []
  | c :: cs, s =>
    (w.RemoveAll c.TopoPaths.TopologyLabDir
        (w.Destroy c cfg.maxWorkers cfg.keepMgmtNet s).2).1 ::
      removeResults w cfg cs (worldAfterLab w cfg c s)

/-- Calls of the teardown of the labs, in order, from `s`: for every lab its
`Destroy` with the error returned, followed with `cleanup` set by
`os.RemoveAll` of its directory with the error returned. -/
def teardownEvents (w : World σ) (cfg : Config) : List CLab → σ → List Event
  | [], _ => []
  | c :: cs, s =>
    Event.Destroy c cfg.maxWorkers cfg.keepMgmtNet
        (w.Destroy c cfg.maxWorkers cfg.keepMgmtNet s).1 ::
      ((if cfg.cleanup = true then
          [Event.RemoveAll c.TopoPaths.TopologyLabDir
            (w.RemoveAll c.TopoPaths.TopologyLabDir
              (w.Destroy c cfg.maxWorkers cfg.keepMgmtNet s).2).1]
        else []) ++
        teardownEvents w cfg cs (worldAfterLab w cfg c s))

/-- The lab and the returned error of a `Destroy` call. -/
def Event.destroyOutcome : Event → Option (CLab × GoError)
  | Event.Destroy c _ _ e => some (c, e)
  | _ => none

/-- The labs on which `Destroy` was called with the error each call returned,
in call order. -/
def destroyOutcomes (tr : List Event) : List (CLab × GoError) :=
  tr.filterMap Event.destroyOutcome

/-- World left by the search of lines 79-98 started in `s` with `cleanup` set:
the glob of the one pattern, then `os.RemoveAll` of its first match if any. -/
def worldAfterSearch (w : World σ) (cfg : Config) (s : σ) : σ :=
  match (w.Glob (globPattern w cfg) s).1 with
  | [] => (w.Glob (globPattern w cfg) s).2
  | d :: _ => (w.RemoveAll d (w.Glob (globPattern w cfg) s).2).2

/-! ## Concrete worlds -/

/-- The components of a slash-separated path (`strings.Split(path, "/")` on the
characters of the path). -/
def splitSlash : List Char → List (List Char)
  | [] => [[]]
  | c :: cs =>
    if c = '/' then [] :: splitSlash cs
    else
      match splitSlash cs with
      | [] => [[c]]
      | h :: t => (c :: h) :: t

/-- One step of `filepath.Clean`: `out` holds the components kept so far, the
last one first.  Empty and `.` components are dropped; `..` removes the
preceding component when there is one that is not `..`, is dropped at the root
of a rooted path, and is kept otherwise. -/
def cleanStep (rooted : Bool) (out : List (List Char)) (comp : List Char) :
    List (List Char) :=
  if comp = [] ∨ comp = ['.'] then out
  else if comp = ['.', '.'] then
    match out with
    | top :: rest => if top = ['.', '.'] then comp :: out else rest
    | [] => if rooted = true then [] else [comp]
  else comp :: out

/-- Go's `filepath.Clean` for slash-separated (Unix) paths: the shortest path
equivalent to `p` by lexical processing; `.` for the empty result. -/
def goClean (p : String) : String :=
  let cs := p.toList
  let rooted : Bool := decide (cs.head? = some '/')
  let out := ((splitSlash cs).foldl (cleanStep rooted) []).reverse
  let body := String.mk (List.intercalate ['/'] out)
  if rooted = true then "/" ++ body else if out = [] then "." else body

/-- Go's `filepath.Dir` for Unix paths: `Clean` of the path up to and
including its last slash. -/
def goDir (p : String) : String :=
  goClean (String.mk ((p.toList.reverse.dropWhile (fun c => c != '/')).reverse))

/-- Go's `filepath.Join` of two elements for Unix paths: empty elements are
ignored and the result is cleaned; the join of two empty elements is empty. -/
def goJoin (a b : String) : String :=
  if a ≠ "" then goClean (a ++ "/" ++ b)
  else if b ≠ "" then goClean b
  else ""

/-- Topology path named in an option list (empty when there is none). -/
def topoOfOpts : List ClabOption → String
  | [] => ""
  | ClabOption.WithTopoPath t _ :: _ => t
  | _ :: rest => topoOfOpts rest

/-- Description of a concrete world: the containers the runtime reports, the
topologies whose lab cannot be built, the labs whose `CreateNetwork` fails, the
labs whose `Destroy` fails, the directories that exist, what every glob returns, whether `os.RemoveAll` fails,
and whether a map is ranged over in reverse. -/
structure Scenario where
  containers : List GenericContainer
  failBuild : List String
  failNetwork : List String
  failDestroy : List String
  existing : List String
  globResult : List String
  removeFails : Bool
  reversed : Bool

/-- The world described by a scenario; its state counts the calls made. -/
def Scenario.world (sc : Scenario) : World Nat where
  NewContainerLab := fun opts n =>
    (if topoOfOpts opts ∈ sc.failBuild then Except.error "bad topology"
     else Except.ok
      { Name := topoOfOpts opts, MgmtBridge := "clab",
        TopoPaths := { labDir := "/cwd/clab-" ++ topoOfOpts opts } }, n + 1)
  ListContainers := fun _ _ n => ((sc.containers, none), n + 1)
  Glob := fun _ n => (sc.globResult, n + 1)
  RemoveAll := fun _ n => (if sc.removeFails = true then some "permission denied" else none, n + 1)
  FileOrDirExists := fun p n => (decide (p ∈ sc.existing), n + 1)
  SetLabDirErr := fun _ n => (none, n + 1)
  SetMgmtNetUnderlyingBridge := fun _ n => (none, n + 1)
  CreateNetwork := fun c n =>
    (if c.Name ∈ sc.failNetwork then some "network unavailable" else none, n + 1)
  ResolveLinks := fun _ n => (none, n + 1)
  Destroy := fun c _ _ n =>
    (if c.Name ∈ sc.failDestroy then some "node removal failed" else none, n + 1)
  filepathDir := goDir
  filepathJoin := goJoin
  rangeOrder := fun m _ => if sc.reversed = true then m.reverse else m
  labelsContainerlab := "containerlab"
  labelsTopoFile := "clab-topo-file"
  labelsNodeLabDir := "clab-node-lab-dir"

/-- A container carrying the three containerlab labels. -/
def labContainer (lab topo nodeDir : String) : GenericContainer :=
  { Labels := [("containerlab", lab), ("clab-topo-file", topo), ("clab-node-lab-dir", nodeDir)] }

/-- A configuration: all-labs mode, no cleanup, no node filter, no topology. -/
def baseConfig : Config :=
  { all := true, cleanup := false, keepMgmtNet := false, Graceful := false, Debug := false,
    maxWorkers := 0, NodeFilter := [], Topo := "", VarsFile := "", Timeout := 0,
    Runtime := "docker" }

/-- Two labs, three containers; the first lab's `Destroy` fails and every
directory removal fails. -/
def twoLabs : Scenario :=
  { containers :=
      [ labContainer "a" "a.yml" "/labs/clab-a/n1",
        labContainer "b" "b.yml" "/labs/clab-b/n1",
        labContainer "a" "a.yml" "/labs/clab-a/n2" ],
    failBuild := [], failNetwork := [], failDestroy := ["a.yml"],
    existing := ["/labs/clab-a", "/labs/clab-b"], globResult := [],
    removeFails := true, reversed := false }

/-- No container at all; the glob finds two directories. -/
def noContainers : Scenario :=
  { containers := [], failBuild := [], failNetwork := [], failDestroy := [], existing := [],
    globResult := ["clab-x", "clab-y"], removeFails := true, reversed := false }

/-- Lab `a` of `twoLabs` once prepared: its directory is the one derived from
the container labels. -/
def labA : CLab :=
  { Name := "a.yml", MgmtBridge := "clab", TopoPaths := { labDir := "/labs/clab-a" } }

/-- Lab `b` of `twoLabs` once prepared. -/
def labB : CLab :=
  { Name := "b.yml", MgmtBridge := "clab", TopoPaths := { labDir := "/labs/clab-b" } }

/-- All-labs mode with cleanup. -/
def allCleanup : Config := { baseConfig with cleanup := true }

/-- Two labs; the lab of `b.yml` cannot be built, every `Destroy` succeeds. -/
def secondLabFails (reversed : Bool) : Scenario :=
  { containers :=
      [ labContainer "a" "a.yml" "/labs/clab-a/n1",
        labContainer "b" "b.yml" "/labs/clab-b/n1" ],
    failBuild := ["b.yml"], failNetwork := [], failDestroy := [],
    existing := ["/labs/clab-a", "/labs/clab-b"], globResult := [],
    removeFails := false, reversed := reversed }

/-- Two labs; `CreateNetwork` fails for the lab of `b.yml`. -/
def networkFails : Scenario :=
  { containers :=
      [ labContainer "a" "a.yml" "/labs/clab-a/n1",
        labContainer "b" "b.yml" "/labs/clab-b/n1" ],
    failBuild := [], failNetwork := ["b.yml"], failDestroy := [],
    existing := ["/labs/clab-a", "/labs/clab-b"], globResult := [],
    removeFails := false, reversed := false }

/-- Single-lab mode with cleanup, for the topology path `topo`. -/
def singleCleanup (topo : String) : Config :=
  { baseConfig with all := false, cleanup := true, Topo := topo }

/-- One lab whose recorded lab directory no longer exists on disk. -/
def labDirGone : Scenario :=
  { containers := [labContainer "a" "a.yml" "/gone/clab-a/n1"],
    failBuild := [], failNetwork := [], failDestroy := [], existing := [], globResult := [],
    removeFails := false, reversed := false }

/-! ## Lemmas on `listContainers` -/

theorem listContainers_of_error (w : World σ) (cfg : Config) (topo : String) (s : σ) (e : String)
    (h : (w.NewContainerLab (listOpts cfg topo) s).1 = Except.error e) :
    listContainers w cfg topo s =
      ⟨([], some e), (w.NewContainerLab (listOpts cfg topo) s).2,
        [Event.NewContainerLab (listOpts cfg topo)]⟩ := by
  unfold listContainers
  simp only [h]

theorem listContainers_of_ok (w : World σ) (cfg : Config) (topo : String) (s : σ) (c : CLab)
    (h : (w.NewContainerLab (listOpts cfg topo) s).1 = Except.ok c) :
    listContainers w cfg topo s =
      ⟨(match (w.ListContainers c (listFilter w topo c)
            (w.NewContainerLab (listOpts cfg topo) s).2).1.2 with
          | some e => ([], some e)
          | none => ((w.ListContainers c (listFilter w topo c)
              (w.NewContainerLab (listOpts cfg topo) s).2).1.1, none)),
        (w.ListContainers c (listFilter w topo c) (w.NewContainerLab (listOpts cfg topo) s).2).2,
        [Event.NewContainerLab (listOpts cfg topo),
          Event.ListContainers c (listFilter w topo c)]⟩ := by
  unfold listContainers
  simp only [h]
  generalize hfl : listFilter w topo c = fl
  simp only [listFilter] at hfl
  rw [hfl]
  generalize (w.ListContainers c fl
    (w.NewContainerLab (listOpts cfg topo) s).2) = r
  rcases r with ⟨⟨cs, _ | e⟩, s2⟩ <;> rfl

theorem listContainers_trace_isDiscovery (w : World σ) (cfg : Config) (topo : String) (s : σ) :
    ∀ e ∈ (listContainers w cfg topo s).trace, e.isDiscovery = true := by
  rcases h : (w.NewContainerLab (listOpts cfg topo) s).1 with e | c
  · rw [listContainers_of_error w cfg topo s e h]; simp [Event.isDiscovery]
  · rw [listContainers_of_ok w cfg topo s c h]; simp [Event.isDiscovery]

theorem listContainers_newLabCalls (w : World σ) (cfg : Config) (topo : String) (s : σ) :
    newLabCalls (listContainers w cfg topo s).trace = [listOpts cfg topo] := by
  rcases h : (w.NewContainerLab (listOpts cfg topo) s).1 with e | c
  · rw [listContainers_of_error w cfg topo s e h]; simp [newLabCalls, Event.newLab]
  · rw [listContainers_of_ok w cfg topo s c h]; simp [newLabCalls, Event.newLab]

theorem filterMap_none_of_isDiscovery {β : Type} (f : Event → Option β) (tr : List Event)
    (hf : ∀ e, e.isDiscovery = true → f e = none)
    (h : ∀ e ∈ tr, e.isDiscovery = true) : tr.filterMap f = [] := by
  induction tr with
  | nil => rfl
  | cons e rest ih =>
    have he : f e = none := hf e (h e (List.mem_cons_self _ _))
    rw [List.filterMap_cons, he]
    exact ih (fun x hx => h x (List.mem_cons_of_mem _ hx))

/-- C1: with a non-empty node filter and `cleanup` set, `destroyFn` returns the
error "cleanup cannot be used with node-filter" whatever the other options are,
having called no collaborator at all (empty trace, world untouched). -/
theorem destroyFn_rejects_cleanup_with_node_filter (w : World σ) (cfg : Config) (s : σ)
    (hf : cfg.NodeFilter ≠ []) (hc : cfg.cleanup = true) :
    (destroyFn w cfg s).val = some "cleanup cannot be used with node-filter" ∧
      (destroyFn w cfg s).trace = [] ∧ (destroyFn w cfg s).world = s := by
  have h : cfg.NodeFilter.length ≠ 0 ∧ cfg.cleanup = true :=
    ⟨fun h0 => hf (List.length_eq_zero.mp h0), hc⟩
  simp only [destroyFn, if_pos h, and_self]

theorem destroyFn_rejects_cleanup_with_node_filter_witness :
    (destroyFn twoLabs.world { baseConfig with cleanup := true, NodeFilter := ["n1"] } 0).val
        = some "cleanup cannot be used with node-filter" ∧
      (destroyFn twoLabs.world { baseConfig with cleanup := true, NodeFilter := ["n1"] } 0).trace
        = [] ∧
      (destroyFn twoLabs.world { baseConfig with cleanup := true, NodeFilter := ["n1"] } 0).world
        = 0 :=
  destroyFn_rejects_cleanup_with_node_filter twoLabs.world
    { baseConfig with cleanup := true, NodeFilter := ["n1"] } 0 (by decide) (by decide)

/-! ## Unfolding `destroyFn` -/

theorem valid_not_guard (cfg : Config) (hv : ¬ (cfg.NodeFilter ≠ [] ∧ cfg.cleanup = true)) :
    ¬ (cfg.NodeFilter.length ≠ 0 ∧ cfg.cleanup = true) := by
  intro h
  exact hv ⟨fun h0 => h.1 (by rw [h0]; rfl), h.2⟩

theorem destroyFn_single_empty (w : World σ) (cfg : Config) (s : σ)
    (hv : ¬ (cfg.NodeFilter ≠ [] ∧ cfg.cleanup = true)) (ha : cfg.all = false)
    (hl : (listContainers w cfg cfg.Topo s).val = ([], none)) :
    destroyFn w cfg s =
      ⟨none, (cleanupNoContainers w cfg (listContainers w cfg cfg.Topo s).world).world,
        (listContainers w cfg cfg.Topo s).trace ++
          (cleanupNoContainers w cfg (listContainers w cfg cfg.Topo s).world).trace⟩ := by
  unfold destroyFn
  rw [if_neg (valid_not_guard cfg hv), if_pos ha]
  simp only [hl]

theorem destroyFn_all_empty (w : World σ) (cfg : Config) (s : σ)
    (hv : ¬ (cfg.NodeFilter ≠ [] ∧ cfg.cleanup = true)) (ha : cfg.all = true)
    (hl : (listContainers w cfg cfg.Topo s).val = ([], none)) :
    destroyFn w cfg s =
      ⟨some "no containerlab labs found", (listContainers w cfg cfg.Topo s).world,
        (listContainers w cfg cfg.Topo s).trace⟩ := by
  unfold destroyFn
  rw [if_neg (valid_not_guard cfg hv), if_neg (by simp [ha])]
  simp only [hl]

theorem destroyFn_nonempty (w : World σ) (cfg : Config) (s : σ)
    (cnts : List GenericContainer)
    (hv : ¬ (cfg.NodeFilter ≠ [] ∧ cfg.cleanup = true))
    (hl : (listContainers w cfg cfg.Topo s).val = (cnts, none)) (hne : cnts ≠ []) :
    destroyFn w cfg s =
      ⟨(destroyTopos w cfg (toposOf w cfg cnts) (listContainers w cfg cfg.Topo s).world).val,
        (destroyTopos w cfg (toposOf w cfg cnts) (listContainers w cfg cfg.Topo s).world).world,
        (listContainers w cfg cfg.Topo s).trace ++
          (destroyTopos w cfg (toposOf w cfg cnts)
            (listContainers w cfg cfg.Topo s).world).trace⟩ := by
  unfold destroyFn toposOf
  rw [if_neg (valid_not_guard cfg hv)]
  cases cnts with
  | nil => exact absurd rfl hne
  | cons c0 rest =>
    by_cases ha : cfg.all = false
    · rw [if_pos ha, if_pos ha]; simp only [hl]
    · rw [if_neg ha, if_neg ha]; simp only [hl]

theorem filter_isBuild_listContainers (w : World σ) (cfg : Config) (topo : String) (s : σ) :
    (listContainers w cfg topo s).trace.filter (fun e => e.isBuild) =
      [Event.NewContainerLab (listOpts cfg topo)] := by
  rcases h : (w.NewContainerLab (listOpts cfg topo) s).1 with e | c
  · rw [listContainers_of_error w cfg topo s e h]; simp [Event.isBuild]
  · rw [listContainers_of_ok w cfg topo s c h]; simp [Event.isBuild]

/-- C4: in all-labs mode with a valid configuration, when `listContainers`
succeeds with an empty list `destroyFn` returns the error
"no containerlab labs found"; its calls are exactly those of `listContainers`
(one `NewContainerLab` for the listing client, then `ListContainers`): no
directory is globbed or removed, no lab is built, resolved or destroyed.  The
statement does not depend on `cleanup`. -/
theorem destroyFn_all_labs_none_found (w : World σ) (cfg : Config) (s : σ)
    (hv : ¬ (cfg.NodeFilter ≠ [] ∧ cfg.cleanup = true)) (ha : cfg.all = true)
    (hl : (listContainers w cfg cfg.Topo s).val = ([], none)) :
    (destroyFn w cfg s).val = some "no containerlab labs found" ∧
      (destroyFn w cfg s).trace = (listContainers w cfg cfg.Topo s).trace ∧
      removedDirs (destroyFn w cfg s).trace = [] ∧
      globCalls (destroyFn w cfg s).trace = [] ∧
      destroyCalls (destroyFn w cfg s).trace = [] ∧
      (destroyFn w cfg s).trace.filter (fun e => e.isBuild) =
        [Event.NewContainerLab (listOpts cfg cfg.Topo)] ∧
      (∀ e ∈ (destroyFn w cfg s).trace, e.isDiscovery = true) := by
  rw [destroyFn_all_empty w cfg s hv ha hl]
  have hd := listContainers_trace_isDiscovery w cfg cfg.Topo s
  refine ⟨rfl, rfl, ?_, ?_, ?_, filter_isBuild_listContainers w cfg cfg.Topo s, hd⟩
  · exact filterMap_none_of_isDiscovery _ _ (fun e he => by cases e <;> simp_all [Event.isDiscovery, Event.removed]) hd
  · exact filterMap_none_of_isDiscovery _ _ (fun e he => by cases e <;> simp_all [Event.isDiscovery, Event.globbed]) hd
  · exact filterMap_none_of_isDiscovery _ _ (fun e he => by cases e <;> simp_all [Event.isDiscovery, Event.destroyed]) hd

theorem destroyFn_all_labs_none_found_witness :
    (destroyFn noContainers.world { baseConfig with cleanup := true } 0).val
        = some "no containerlab labs found" ∧
      removedDirs (destroyFn noContainers.world { baseConfig with cleanup := true } 0).trace
        = [] ∧
      destroyCalls (destroyFn noContainers.world { baseConfig with cleanup := true } 0).trace
        = [] :=
  have h := destroyFn_all_labs_none_found noContainers.world
    { baseConfig with cleanup := true } 0 (by decide) (by decide) (by decide)
  ⟨h.1, h.2.2.1, h.2.2.2.2.1⟩

/-! ## The search for a lab directory -/

theorem findLabDirs_nil (w : World σ) (cfg : Config) (s : σ) :
    findLabDirs w cfg [] s =
      ⟨(w.Glob (globPattern w cfg) s).1, (w.Glob (globPattern w cfg) s).2,
        [Event.Glob (globPattern w cfg)]⟩ := by
  unfold findLabDirs globPattern
  by_cases ht : cfg.Topo = ""
  · simp [ht]
  · simp [ht]

theorem cleanupNoContainers_off (w : World σ) (cfg : Config) (s : σ)
    (hc : cfg.cleanup = false) : cleanupNoContainers w cfg s = ⟨(), s, []⟩ := by
  unfold cleanupNoContainers
  simp [hc]

theorem cleanupNoContainers_on (w : World σ) (cfg : Config) (s : σ)
    (hc : cfg.cleanup = true) :
    (cleanupNoContainers w cfg s).trace =
      Event.Glob (globPattern w cfg) ::
        (match (w.Glob (globPattern w cfg) s).1 with
          | [] => []
          | d :: _ => [Event.RemoveAll d (w.RemoveAll d (w.Glob (globPattern w cfg) s).2).1]) := by
  unfold cleanupNoContainers
  rw [if_pos hc, findLabDirs_nil]
  dsimp only
  cases (w.Glob (globPattern w cfg) s).1 <;> rfl

theorem cleanupNoContainers_calls (w : World σ) (cfg : Config) (s : σ)
    (hc : cfg.cleanup = true) :
    globCalls (cleanupNoContainers w cfg s).trace = [globPattern w cfg] ∧
      removedDirs (cleanupNoContainers w cfg s).trace =
        ((w.Glob (globPattern w cfg) s).1).take 1 ∧
      destroyCalls (cleanupNoContainers w cfg s).trace = [] ∧
      (cleanupNoContainers w cfg s).trace.filter (fun e => e.isBuild) = [] := by
  rw [cleanupNoContainers_on w cfg s hc]
  cases (w.Glob (globPattern w cfg) s).1 <;>
    simp [globCalls, removedDirs, destroyCalls, Event.globbed, Event.removed, Event.destroyed,
      Event.isBuild]

theorem globCalls_listContainers (w : World σ) (cfg : Config) (topo : String) (s : σ) :
    globCalls (listContainers w cfg topo s).trace = [] :=
  filterMap_none_of_isDiscovery _ _
    (fun e he => by cases e <;> simp_all [Event.isDiscovery, Event.globbed])
    (listContainers_trace_isDiscovery w cfg topo s)

theorem removedDirs_listContainers (w : World σ) (cfg : Config) (topo : String) (s : σ) :
    removedDirs (listContainers w cfg topo s).trace = [] :=
  filterMap_none_of_isDiscovery _ _
    (fun e he => by cases e <;> simp_all [Event.isDiscovery, Event.removed])
    (listContainers_trace_isDiscovery w cfg topo s)

theorem destroyCalls_listContainers (w : World σ) (cfg : Config) (topo : String) (s : σ) :
    destroyCalls (listContainers w cfg topo s).trace = [] :=
  filterMap_none_of_isDiscovery _ _
    (fun e he => by cases e <;> simp_all [Event.isDiscovery, Event.destroyed])
    (listContainers_trace_isDiscovery w cfg topo s)

theorem destroyCalls_append (a b : List Event) :
    destroyCalls (a ++ b) = destroyCalls a ++ destroyCalls b := by
  simp [destroyCalls]

theorem removedDirs_append (a b : List Event) :
    removedDirs (a ++ b) = removedDirs a ++ removedDirs b := by
  simp [removedDirs]

theorem globCalls_append (a b : List Event) :
    globCalls (a ++ b) = globCalls a ++ globCalls b := by
  simp [globCalls]

theorem newLabCalls_append (a b : List Event) :
    newLabCalls (a ++ b) = newLabCalls a ++ newLabCalls b := by
  simp [newLabCalls]

theorem destroyErrs_append (a b : List Event) :
    destroyErrs (a ++ b) = destroyErrs a ++ destroyErrs b := by
  simp [destroyErrs]

theorem labDirsSet_append (a b : List Event) :
    labDirsSet (a ++ b) = labDirsSet a ++ labDirsSet b := by
  simp [labDirsSet]

/-- C5: in single-lab mode with a valid configuration, when `listContainers`
succeeds with an empty list `destroyFn` returns `nil` in every world (so also
when `os.RemoveAll` fails); `Destroy` is never called and the only build call
is the `NewContainerLab` of the listing client.  With `cleanup` set and no
topology path, exactly the pattern `clab-*` is globbed and the directories
removed are the first match of that glob, if any (at most one); with `cleanup`
unset nothing is globbed or removed. -/
theorem destroyFn_single_lab_none_found (w : World σ) (cfg : Config) (s : σ)
    (hv : ¬ (cfg.NodeFilter ≠ [] ∧ cfg.cleanup = true)) (ha : cfg.all = false)
    (hl : (listContainers w cfg cfg.Topo s).val = ([], none)) :
    (destroyFn w cfg s).val = none ∧
      destroyCalls (destroyFn w cfg s).trace = [] ∧
      (destroyFn w cfg s).trace.filter (fun e => e.isBuild) =
        [Event.NewContainerLab (listOpts cfg cfg.Topo)] ∧
      (cfg.cleanup = true → cfg.Topo = "" →
        globCalls (destroyFn w cfg s).trace = ["clab-*"] ∧
        removedDirs (destroyFn w cfg s).trace =
          ((w.Glob "clab-*" (listContainers w cfg cfg.Topo s).world).1).take 1 ∧
        (removedDirs (destroyFn w cfg s).trace).length ≤ 1 ∧
        ((w.Glob "clab-*" (listContainers w cfg cfg.Topo s).world).1 = [] →
          removedDirs (destroyFn w cfg s).trace = [])) ∧
      (cfg.cleanup = false →
        globCalls (destroyFn w cfg s).trace = [] ∧
        removedDirs (destroyFn w cfg s).trace = []) := by
  rw [destroyFn_single_empty w cfg s hv ha hl]
  dsimp only
  refine ⟨rfl, ?_, ?_, ?_, ?_⟩
  · by_cases hc : cfg.cleanup = true
    · rw [destroyCalls_append, (cleanupNoContainers_calls w cfg _ hc).2.2.1,
        destroyCalls_listContainers]
      rfl
    · rw [cleanupNoContainers_off w cfg _ (by simpa using hc), List.append_nil,
        destroyCalls_listContainers]
  · rw [List.filter_append, filter_isBuild_listContainers]
    by_cases hc : cfg.cleanup = true
    · rw [(cleanupNoContainers_calls w cfg _ hc).2.2.2]; rfl
    · rw [cleanupNoContainers_off w cfg _ (by simpa using hc)]; rfl
  · intro hc ht
    have hp : globPattern w cfg = "clab-*" := by simp [globPattern, ht]
    have h := cleanupNoContainers_calls w cfg (listContainers w cfg cfg.Topo s).world hc
    rw [hp] at h
    have hg : globCalls ((listContainers w cfg cfg.Topo s).trace ++
        (cleanupNoContainers w cfg (listContainers w cfg cfg.Topo s).world).trace) =
        ["clab-*"] := by
      rw [globCalls_append, h.1, globCalls_listContainers]
      rfl
    have hr : removedDirs ((listContainers w cfg cfg.Topo s).trace ++
        (cleanupNoContainers w cfg (listContainers w cfg cfg.Topo s).world).trace) =
        ((w.Glob "clab-*" (listContainers w cfg cfg.Topo s).world).1).take 1 := by
      rw [removedDirs_append, h.2.1, removedDirs_listContainers]
      rfl
    refine ⟨hg, hr, ?_, ?_⟩
    · rw [hr]; simp
    · intro h0; rw [hr, h0]; rfl
  · intro hc
    rw [cleanupNoContainers_off w cfg _ hc]
    simp only [List.append_nil]
    exact ⟨globCalls_listContainers w cfg cfg.Topo s, removedDirs_listContainers w cfg cfg.Topo s⟩

theorem destroyFn_single_lab_none_found_witness :
    (destroyFn noContainers.world { baseConfig with all := false, cleanup := true } 0).val
        = none ∧
      removedDirs
          (destroyFn noContainers.world { baseConfig with all := false, cleanup := true } 0).trace
        = ["clab-x"] :=
  have h := destroyFn_single_lab_none_found noContainers.world
    { baseConfig with all := false, cleanup := true } 0 (by decide) (by decide) (by decide)
  ⟨h.1, (h.2.2.2.1 (by decide) (by decide)).2.1⟩

/-- C8: whatever the topology path, `listContainers` passes to `ListContainers`
a list of exactly one filter, of type `label` on the field
`labels.Containerlab`: operator `exists` with no match value when the path is
empty, operator `=` with the name of the lab that `NewContainerLab` built from
that topology (the option `WithTopoPath topo` is then among the options) when
it is not.  At most one query is issued, exactly one when the lab was built, so
no query lacks the ownership constraint; and an error is always returned with
the `nil` container list. -/
theorem listContainers_filter_on_ownership_label (w : World σ) (cfg : Config)
    (topo : String) (s : σ) :
    (∀ f ∈ listFilters (listContainers w cfg topo s).trace,
        ∃ fl : GenericFilter, f = [fl] ∧ fl.FilterType = "label" ∧
          fl.Field = w.labelsContainerlab ∧
          (topo = "" → fl.Operator = "exists" ∧ fl.Match = "") ∧
          (topo ≠ "" → fl.Operator = "=" ∧
            ClabOption.WithTopoPath topo cfg.VarsFile ∈ listOpts cfg topo ∧
            ∃ c : CLab, (w.NewContainerLab (listOpts cfg topo) s).1 = Except.ok c ∧
              fl.Match = c.Name)) ∧
      (listFilters (listContainers w cfg topo s).trace).length ≤ 1 ∧
      (∀ c : CLab, (w.NewContainerLab (listOpts cfg topo) s).1 = Except.ok c →
        (listContainers w cfg topo s).trace =
          [Event.NewContainerLab (listOpts cfg topo),
            Event.ListContainers c (listFilter w topo c)]) ∧
      (∀ e : String, (w.NewContainerLab (listOpts cfg topo) s).1 = Except.error e →
        (listContainers w cfg topo s).val = ([], some e)) ∧
      (∀ (c : CLab) (e : String),
        (w.NewContainerLab (listOpts cfg topo) s).1 = Except.ok c →
        (w.ListContainers c (listFilter w topo c)
          (w.NewContainerLab (listOpts cfg topo) s).2).1.2 = some e →
        (listContainers w cfg topo s).val = ([], some e)) ∧
      ((listContainers w cfg topo s).val.2 ≠ none →
        (listContainers w cfg topo s).val.1 = []) := by
  rcases h : (w.NewContainerLab (listOpts cfg topo) s).1 with e | c
  · rw [listContainers_of_error w cfg topo s e h]
    refine ⟨?_, ?_, ?_, ?_, ?_, ?_⟩
    · simp [listFilters, Event.listed]
    · simp [listFilters, Event.listed]
    · intro c hc; cases hc
    · intro e2 he; cases he; rfl
    · intro c e2 hc; cases hc
    · intro _; rfl
  · rw [listContainers_of_ok w cfg topo s c h]
    refine ⟨?_, ?_, ?_, ?_, ?_, ?_⟩
    · intro f hf
      have hf2 : f = listFilter w topo c := by
        simpa [listFilters, Event.listed] using hf
      subst hf2
      by_cases ht : topo = ""
      · refine ⟨⟨"label", w.labelsContainerlab, "exists", ""⟩, ?_, rfl, rfl, ?_, ?_⟩
        · simp [listFilter, ht]
        · intro _; exact ⟨rfl, rfl⟩
        · intro hne; exact absurd ht hne
      · refine ⟨⟨"label", w.labelsContainerlab, "=", c.Name⟩, ?_, rfl, rfl, ?_, ?_⟩
        · simp [listFilter, ht]
        · intro h0; exact absurd h0 ht
        · intro _
          refine ⟨rfl, ?_, c, rfl, rfl⟩
          simp [listOpts, ht]
    · simp [listFilters, Event.listed]
    · intro c2 hc; cases hc; rfl
    · intro e2 he; cases he
    · intro c2 e2 hc he
      cases hc
      dsimp only
      rw [he]
    · dsimp only
      cases (w.ListContainers c (listFilter w topo c)
        (w.NewContainerLab (listOpts cfg topo) s).2).1.2 with
      | none => intro hn; exact absurd rfl hn
      | some e2 => intro _; rfl

/-! ## The topology map -/

theorem mapSet_keys_mem (m : List (String × String)) (k v k1 : String) :
    k1 ∈ (mapSet m k v).map Prod.fst ↔ k1 = k ∨ k1 ∈ m.map Prod.fst := by
  induction m with
  | nil => simp [mapSet]
  | cons e rest ih =>
    obtain ⟨k0, v0⟩ := e
    unfold mapSet
    by_cases h : k0 = k
    · rw [if_pos h]
      subst h
      simp
    · rw [if_neg h]
      simp only [List.map_cons, List.mem_cons, ih]
      tauto

theorem mapSet_keys_nodup (m : List (String × String)) (k v : String)
    (hnd : (m.map Prod.fst).Nodup) : ((mapSet m k v).map Prod.fst).Nodup := by
  induction m with
  | nil => simp [mapSet]
  | cons e rest ih =>
    obtain ⟨k0, v0⟩ := e
    unfold mapSet
    by_cases h : k0 = k
    · rw [if_pos h]
      simpa using hnd
    · rw [if_neg h]
      simp only [List.map_cons, List.nodup_cons] at hnd ⊢
      refine ⟨?_, ih hnd.2⟩
      intro hmem
      rcases (mapSet_keys_mem rest k v k0).1 hmem with h1 | h1
      · exact h h1
      · exact hnd.1 h1

theorem mapSet_mem (m : List (String × String)) (k v k1 v1 : String)
    (hnd : (m.map Prod.fst).Nodup) :
    (k1, v1) ∈ mapSet m k v ↔ (k1 = k ∧ v1 = v) ∨ (k1 ≠ k ∧ (k1, v1) ∈ m) := by
  induction m with
  | nil => simp [mapSet]
  | cons e rest ih =>
    obtain ⟨k0, v0⟩ := e
    simp only [List.map_cons, List.nodup_cons] at hnd
    unfold mapSet
    by_cases h : k0 = k
    · rw [if_pos h]
      subst h
      simp only [List.mem_cons, Prod.mk.injEq]
      constructor
      · rintro (⟨h1, h2⟩ | h1)
        · exact Or.inl ⟨h1, h2⟩
        · by_cases hk : k1 = k0
          · subst hk
            exact absurd (List.mem_map_of_mem Prod.fst h1) hnd.1
          · exact Or.inr ⟨hk, Or.inr h1⟩
      · rintro (⟨h1, h2⟩ | ⟨h1, h2 | h2⟩)
        · exact Or.inl ⟨h1, h2⟩
        · exact absurd h2.1 h1
        · exact Or.inr h2
    · rw [if_neg h]
      simp only [List.mem_cons, Prod.mk.injEq, ih hnd.2]
      constructor
      · rintro (⟨h1, h2⟩ | h1 | h1)
        · subst h1; exact Or.inr ⟨h, Or.inl ⟨rfl, h2⟩⟩
        · exact Or.inl h1
        · exact Or.inr ⟨h1.1, Or.inr h1.2⟩
      · rintro (h1 | ⟨h1, h2 | h2⟩)
        · exact Or.inr (Or.inl h1)
        · exact Or.inl h2
        · exact Or.inr (Or.inr ⟨h1, h2⟩)

theorem collectToposFrom_snoc (w : World σ) (l : List GenericContainer) (a : GenericContainer)
    (m : List (String × String)) :
    collectToposFrom w (l ++ [a]) m =
      mapSet (collectToposFrom w l m) (topoKey w a) (topoVal w a) := by
  induction l generalizing m with
  | nil => rfl
  | cons c rest ih => exact ih _

theorem collectTopos_snoc (w : World σ) (l : List GenericContainer) (a : GenericContainer) :
    collectTopos w (l ++ [a]) = mapSet (collectTopos w l) (topoKey w a) (topoVal w a) :=
  collectToposFrom_snoc w l a []

theorem collectTopos_keys_nodup (w : World σ) (cnts : List GenericContainer) :
    ((collectTopos w cnts).map Prod.fst).Nodup := by
  induction cnts using List.reverseRecOn with
  | nil => simp [collectTopos, collectToposFrom]
  | append_singleton l a ih =>
    rw [collectTopos_snoc]
    exact mapSet_keys_nodup _ _ _ ih

theorem collectTopos_keys_mem (w : World σ) (cnts : List GenericContainer) (k : String) :
    k ∈ (collectTopos w cnts).map Prod.fst ↔ k ∈ cnts.map (topoKey w) := by
  induction cnts using List.reverseRecOn with
  | nil => simp [collectTopos, collectToposFrom]
  | append_singleton l a ih =>
    rw [collectTopos_snoc, mapSet_keys_mem, ih]
    simp only [List.map_append, List.map_cons, List.map_nil, List.mem_append,
      List.mem_singleton]
    tauto

theorem collectTopos_mem (w : World σ) (cnts : List GenericContainer) (k v : String) :
    (k, v) ∈ collectTopos w cnts ↔
      ∃ pre c post, cnts = pre ++ c :: post ∧ topoKey w c = k ∧
        (∀ d ∈ post, topoKey w d ≠ k) ∧ v = topoVal w c := by
  induction cnts using List.reverseRecOn with
  | nil => simp [collectTopos, collectToposFrom]
  | append_singleton l a ih =>
    rw [collectTopos_snoc, mapSet_mem _ _ _ _ _ (collectTopos_keys_nodup w l), ih]
    constructor
    · rintro (⟨h1, h2⟩ | ⟨h1, pre, c, post, h2, h3, h4, h5⟩)
      · exact ⟨l, a, [], rfl, h1.symm, by simp, h2⟩
      · refine ⟨pre, c, post ++ [a], by simp [h2], h3, ?_, h5⟩
        intro d hd
        rcases List.mem_append.1 hd with hd | hd
        · exact h4 d hd
        · rw [List.mem_singleton.1 hd]
          exact fun h => h1 h.symm
    · rintro ⟨pre, c, post, h2, h3, h4, h5⟩
      rcases List.eq_nil_or_concat post with hp | ⟨post1, b, hp⟩
      · subst hp
        have h6 := List.append_inj' h2 rfl
        have h7 : a = c := by simpa using h6.2
        subst h7
        exact Or.inl ⟨h3.symm, h5⟩
      · rw [List.concat_eq_append] at hp
        subst hp
        have h2b : l ++ [a] = (pre ++ c :: post1) ++ [b] := by simpa using h2
        have h6 := List.append_inj' h2b rfl
        have h7 : a = b := by simpa using h6.2
        subst h7
        refine Or.inr ⟨?_, pre, c, post1, h6.1, h3, ?_, h5⟩
        · exact fun h => h4 a (by simp) h.symm
        · exact fun d hd => h4 d (by simp [hd])

theorem collectTopos_length (w : World σ) (cnts : List GenericContainer) :
    (collectTopos w cnts).length = ((cnts.map (topoKey w)).dedup).length := by
  have hp : ((collectTopos w cnts).map Prod.fst).Perm ((cnts.map (topoKey w)).dedup) := by
    rw [List.perm_ext_iff_of_nodup (collectTopos_keys_nodup w cnts) (List.nodup_dedup _)]
    intro k
    rw [collectTopos_keys_mem, List.mem_dedup]
  simpa using hp.length_eq

/-! ## Preparing labs -/

theorem adjustLabDir_skip (w : World σ) (nc : CLab) (labdir : String) (s : σ)
    (h : ¬ (labdir ≠ "" ∧ (w.FileOrDirExists labdir s).1 = true)) :
    (adjustLabDir w nc labdir s).val = Except.ok nc ∧
      labDirsSet (adjustLabDir w nc labdir s).trace = [] ∧
      (∀ e ∈ (adjustLabDir w nc labdir s).trace, e.isBuild = true) := by
  unfold adjustLabDir
  by_cases h1 : labdir = ""
  · simp [h1, labDirsSet]
  · have h2 : ¬ (w.FileOrDirExists labdir s).1 = true := fun h2 => h ⟨h1, h2⟩
    simp [h1, h2, labDirsSet, Event.labDirSet, Event.isBuild]

theorem adjustLabDir_set (w : World σ) (nc : CLab) (labdir : String) (s : σ)
    (h1 : labdir ≠ "") (h2 : (w.FileOrDirExists labdir s).1 = true) :
    adjustLabDir w nc labdir s =
      ⟨(match (w.SetLabDirErr labdir (w.FileOrDirExists labdir s).2).1 with
          | some e => Except.error e
          | none => Except.ok { nc with TopoPaths := { labDir := labdir } }),
        (w.SetLabDirErr labdir (w.FileOrDirExists labdir s).2).2,
        [Event.FileOrDirExists labdir,
          Event.SetLabDir labdir (w.SetLabDirErr labdir (w.FileOrDirExists labdir s).2).1]⟩ := by
  unfold adjustLabDir TopoPaths.SetLabDir
  rw [if_pos h1, if_pos h2]
  cases (w.SetLabDirErr labdir (w.FileOrDirExists labdir s).2).1 <;> rfl

theorem adjustLabDir_trace_isBuild (w : World σ) (nc : CLab) (labdir : String) (s : σ) :
    ∀ e ∈ (adjustLabDir w nc labdir s).trace, e.isBuild = true := by
  by_cases h : labdir ≠ "" ∧ (w.FileOrDirExists labdir s).1 = true
  · rw [adjustLabDir_set w nc labdir s h.1 h.2]
    simp [Event.isBuild]
  · exact (adjustLabDir_skip w nc labdir s h).2.2

theorem resolveLab_trace_isBuild (w : World σ) (nc : CLab) (s : σ) :
    ∀ e ∈ (resolveLab w nc s).trace, e.isBuild = true := by
  unfold resolveLab
  cases (w.SetMgmtNetUnderlyingBridge nc.MgmtBridge s).1 with
  | some e => simp [Event.isBuild]
  | none =>
    dsimp only
    cases (w.CreateNetwork nc (w.SetMgmtNetUnderlyingBridge nc.MgmtBridge s).2).1 with
    | some e => simp [Event.isBuild]
    | none =>
      dsimp only
      cases (w.ResolveLinks nc (w.CreateNetwork nc
        (w.SetMgmtNetUnderlyingBridge nc.MgmtBridge s).2).2).1 <;> simp [Event.isBuild]

theorem resolveLab_ok (w : World σ) (nc nc1 : CLab) (s : σ)
    (h : (resolveLab w nc s).val = Except.ok nc1) :
    nc1 = nc ∧
      (resolveLab w nc s).trace =
        [Event.SetMgmtNetUnderlyingBridge nc.MgmtBridge, Event.CreateNetwork nc,
          Event.ResolveLinks nc] := by
  unfold resolveLab at h ⊢
  cases h1 : (w.SetMgmtNetUnderlyingBridge nc.MgmtBridge s).1 with
  | some e => rw [h1] at h; cases h
  | none =>
    rw [h1] at h
    dsimp only at h ⊢
    cases h2 : (w.CreateNetwork nc (w.SetMgmtNetUnderlyingBridge nc.MgmtBridge s).2).1 with
    | some e => rw [h2] at h; cases h
    | none =>
      rw [h2] at h
      dsimp only at h ⊢
      cases h3 : (w.ResolveLinks nc (w.CreateNetwork nc
          (w.SetMgmtNetUnderlyingBridge nc.MgmtBridge s).2).2).1 with
      | some e => rw [h3] at h; cases h
      | none =>
        rw [h3] at h
        dsimp only at h
        cases h
        exact ⟨rfl, rfl⟩

theorem prepareLab_of_error (w : World σ) (cfg : Config) (topo labdir : String) (s : σ)
    (e : String) (h : (w.NewContainerLab (destroyOpts cfg topo) s).1 = Except.error e) :
    prepareLab w cfg topo labdir s =
      ⟨Except.error e, (w.NewContainerLab (destroyOpts cfg topo) s).2,
        [Event.NewContainerLab (destroyOpts cfg topo)]⟩ := by
  unfold prepareLab
  simp only [h]

theorem prepareLab_of_ok (w : World σ) (cfg : Config) (topo labdir : String) (s : σ)
    (nc0 : CLab) (h : (w.NewContainerLab (destroyOpts cfg topo) s).1 = Except.ok nc0) :
    prepareLab w cfg topo labdir s =
      (match (adjustLabDir w nc0 labdir (w.NewContainerLab (destroyOpts cfg topo) s).2).val with
        | Except.error e =>
          ⟨Except.error e,
            (adjustLabDir w nc0 labdir (w.NewContainerLab (destroyOpts cfg topo) s).2).world,
            Event.NewContainerLab (destroyOpts cfg topo) ::
              (adjustLabDir w nc0 labdir (w.NewContainerLab (destroyOpts cfg topo) s).2).trace⟩
        | Except.ok nc =>
          ⟨(resolveLab w nc
              (adjustLabDir w nc0 labdir
                (w.NewContainerLab (destroyOpts cfg topo) s).2).world).val,
            (resolveLab w nc
              (adjustLabDir w nc0 labdir
                (w.NewContainerLab (destroyOpts cfg topo) s).2).world).world,
            Event.NewContainerLab (destroyOpts cfg topo) ::
              ((adjustLabDir w nc0 labdir
                  (w.NewContainerLab (destroyOpts cfg topo) s).2).trace ++
                (resolveLab w nc
                  (adjustLabDir w nc0 labdir
                    (w.NewContainerLab (destroyOpts cfg topo) s).2).world).trace)⟩) := by
  unfold prepareLab
  simp only [h]

theorem prepareLab_trace_isBuild (w : World σ) (cfg : Config) (topo labdir : String) (s : σ) :
    ∀ e ∈ (prepareLab w cfg topo labdir s).trace, e.isBuild = true := by
  rcases h : (w.NewContainerLab (destroyOpts cfg topo) s).1 with e | nc0
  · rw [prepareLab_of_error w cfg topo labdir s e h]
    simp [Event.isBuild]
  · rw [prepareLab_of_ok w cfg topo labdir s nc0 h]
    have ha := adjustLabDir_trace_isBuild w nc0 labdir
      (w.NewContainerLab (destroyOpts cfg topo) s).2
    cases hv : (adjustLabDir w nc0 labdir (w.NewContainerLab (destroyOpts cfg topo) s).2).val with
    | error e =>
      intro x hx
      rcases List.mem_cons.1 hx with hx | hx
      · rw [hx]; rfl
      · exact ha x hx
    | ok nc =>
      intro x hx
      rcases List.mem_cons.1 hx with hx | hx
      · rw [hx]; rfl
      · rcases List.mem_append.1 hx with hx | hx
        · exact ha x hx
        · exact resolveLab_trace_isBuild w nc _ x hx

theorem prepareLabs_trace_isBuild (w : World σ) (cfg : Config) (ents : List (String × String))
    (labs : List CLab) (s : σ) :
    ∀ e ∈ (prepareLabs w cfg ents labs s).trace, e.isBuild = true := by
  induction ents generalizing labs s with
  | nil => simp [prepareLabs]
  | cons ent rest ih =>
    obtain ⟨topo, labdir⟩ := ent
    unfold prepareLabs
    have hb := prepareLab_trace_isBuild w cfg topo labdir s
    cases hv : (prepareLab w cfg topo labdir s).val with
    | error e => exact hb
    | ok nc =>
      intro x hx
      rcases List.mem_append.1 hx with hx | hx
      · exact hb x hx
      · exact ih _ _ x hx

theorem prepareLabs_ok_length (w : World σ) (cfg : Config) (ents : List (String × String))
    (labs0 labs : List CLab) (s : σ)
    (h : (prepareLabs w cfg ents labs0 s).val = Except.ok labs) :
    labs.length = labs0.length + ents.length := by
  induction ents generalizing labs0 s with
  | nil =>
    simp only [prepareLabs] at h
    cases h; rfl
  | cons ent rest ih =>
    obtain ⟨topo, labdir⟩ := ent
    unfold prepareLabs at h
    cases hv : (prepareLab w cfg topo labdir s).val with
    | error e => rw [hv] at h; cases h
    | ok nc =>
      rw [hv] at h
      have := ih _ _ h
      simp only [List.length_append, List.length_cons, List.length_nil] at this ⊢
      omega

theorem filterMap_none_of_isBuild {β : Type} (f : Event → Option β) (tr : List Event)
    (hf : ∀ e, e.isBuild = true → f e = none)
    (h : ∀ e ∈ tr, e.isBuild = true) : tr.filterMap f = [] := by
  induction tr with
  | nil => rfl
  | cons e rest ih =>
    have he : f e = none := hf e (h e (List.mem_cons_self _ _))
    rw [List.filterMap_cons, he]
    exact ih (fun x hx => h x (List.mem_cons_of_mem _ hx))

theorem destroyCalls_of_isBuild (tr : List Event) (h : ∀ e ∈ tr, e.isBuild = true) :
    destroyCalls tr = [] :=
  filterMap_none_of_isBuild _ _
    (fun e he => by cases e <;> simp_all [Event.isBuild, Event.destroyed]) h

theorem destroyErrs_of_isBuild (tr : List Event) (h : ∀ e ∈ tr, e.isBuild = true) :
    destroyErrs tr = [] :=
  filterMap_none_of_isBuild _ _
    (fun e he => by cases e <;> simp_all [Event.isBuild, Event.destroyErr]) h

theorem removedDirs_of_isBuild (tr : List Event) (h : ∀ e ∈ tr, e.isBuild = true) :
    removedDirs tr = [] :=
  filterMap_none_of_isBuild _ _
    (fun e he => by cases e <;> simp_all [Event.isBuild, Event.removed]) h

theorem destroyErrs_listContainers (w : World σ) (cfg : Config) (topo : String) (s : σ) :
    destroyErrs (listContainers w cfg topo s).trace = [] :=
  filterMap_none_of_isDiscovery _ _
    (fun e he => by cases e <;> simp_all [Event.isDiscovery, Event.destroyErr])
    (listContainers_trace_isDiscovery w cfg topo s)

/-! ## Teardown -/

theorem teardownLab_destroyCalls (w : World σ) (cfg : Config) (c : CLab) (errs : List String)
    (s : σ) : destroyCalls (teardownLab w cfg c errs s).trace = [c] := by
  unfold teardownLab destroyLab
  by_cases hc : cfg.cleanup = true
  · simp [hc, destroyCalls, Event.destroyed]
  · simp [hc, destroyCalls, Event.destroyed]

theorem teardownLab_val (w : World σ) (cfg : Config) (c : CLab) (errs : List String)
    (s : σ) :
    (teardownLab w cfg c errs s).val =
      errs ++ destroyErrs (teardownLab w cfg c errs s).trace := by
  unfold teardownLab destroyLab
  by_cases hc : cfg.cleanup = true
  · cases h : (w.Destroy c cfg.maxWorkers cfg.keepMgmtNet s).1 <;>
      simp [hc, destroyErrs, Event.destroyErr]
  · cases h : (w.Destroy c cfg.maxWorkers cfg.keepMgmtNet s).1 <;>
      simp [hc, destroyErrs, Event.destroyErr]

theorem teardownLabs_destroyCalls (w : World σ) (cfg : Config) (labs : List CLab)
    (errs : List String) (s : σ) :
    destroyCalls (teardownLabs w cfg labs errs s).trace = labs := by
  induction labs generalizing errs s with
  | nil => rfl
  | cons c rest ih =>
    unfold teardownLabs
    dsimp only
    rw [destroyCalls_append, teardownLab_destroyCalls, ih]
    rfl

theorem teardownLabs_val (w : World σ) (cfg : Config) (labs : List CLab)
    (errs : List String) (s : σ) :
    (teardownLabs w cfg labs errs s).val =
      errs ++ destroyErrs (teardownLabs w cfg labs errs s).trace := by
  induction labs generalizing errs s with
  | nil => simp [teardownLabs, destroyErrs]
  | cons c rest ih =>
    unfold teardownLabs
    dsimp only
    rw [ih, destroyErrs_append, teardownLab_val, List.append_assoc]

/-! ## Unfolding `destroyTopos` -/

theorem destroyTopos_of_ok (w : World σ) (cfg : Config) (topos : List (String × String))
    (s : σ) (labs : List CLab)
    (hp : (prepareLabs w cfg (w.rangeOrder topos s) [] s).val = Except.ok labs) :
    destroyTopos w cfg topos s =
      ⟨if destroyErrs (teardownLabs w cfg labs []
            (prepareLabs w cfg (w.rangeOrder topos s) [] s).world).trace = [] then none
          else some "error(s) occurred during the deletion. Check log messages",
        (teardownLabs w cfg labs []
          (prepareLabs w cfg (w.rangeOrder topos s) [] s).world).world,
        (prepareLabs w cfg (w.rangeOrder topos s) [] s).trace ++
          (teardownLabs w cfg labs []
            (prepareLabs w cfg (w.rangeOrder topos s) [] s).world).trace⟩ := by
  unfold destroyTopos
  simp only [hp]
  rw [teardownLabs_val]
  simp only [List.nil_append]
  by_cases h : destroyErrs (teardownLabs w cfg labs []
      (prepareLabs w cfg (w.rangeOrder topos s) [] s).world).trace = []
  · rw [h]; rfl
  · rw [if_neg h, if_pos]
    simpa [List.length_eq_zero] using h

theorem destroyTopos_of_error (w : World σ) (cfg : Config) (topos : List (String × String))
    (s : σ) (e : String)
    (hp : (prepareLabs w cfg (w.rangeOrder topos s) [] s).val = Except.error e) :
    destroyTopos w cfg topos s =
      ⟨some e, (prepareLabs w cfg (w.rangeOrder topos s) [] s).world,
        (prepareLabs w cfg (w.rangeOrder topos s) [] s).trace⟩ := by
  unfold destroyTopos
  simp only [hp]

/-! ## The batch -/

theorem destroyErrs_ne_nil_iff (tr : List Event) :
    destroyErrs tr ≠ [] ↔
      ∃ c mw k e, Event.Destroy c mw k (some e) ∈ tr := by
  constructor
  · intro h
    obtain ⟨x, hx⟩ := List.exists_mem_of_ne_nil _ h
    obtain ⟨ev, hev, he⟩ := List.mem_filterMap.1 hx
    cases ev with
    | Destroy c mw k err =>
      cases err with
      | none => simp [Event.destroyErr] at he
      | some e => exact ⟨c, mw, k, e, hev⟩
    | _ => simp [Event.destroyErr] at he
  · rintro ⟨c, mw, k, e, h⟩ h0
    have : e ∈ destroyErrs tr := List.mem_filterMap.2 ⟨_, h, rfl⟩
    rw [h0] at this
    cases this

theorem resolveLab_labDirsSet (w : World σ) (nc : CLab) (s : σ) :
    labDirsSet (resolveLab w nc s).trace = [] := by
  unfold resolveLab
  cases (w.SetMgmtNetUnderlyingBridge nc.MgmtBridge s).1 with
  | some e => simp [labDirsSet, Event.labDirSet]
  | none =>
    dsimp only
    cases (w.CreateNetwork nc (w.SetMgmtNetUnderlyingBridge nc.MgmtBridge s).2).1 with
    | some e => simp [labDirsSet, Event.labDirSet]
    | none =>
      dsimp only
      cases (w.ResolveLinks nc (w.CreateNetwork nc
        (w.SetMgmtNetUnderlyingBridge nc.MgmtBridge s).2).2).1 <;>
        simp [labDirsSet, Event.labDirSet]

/-- C7: in all-labs mode the topology map built from the discovered containers
has pairwise distinct keys, its keys are exactly the topology-file labels that
occur in the list (so it has as many entries as there are distinct labels, and
a preparation that succeeds yields that many labs), and the value under a key
is `filepath.Dir` of the node-lab-dir label of the last container of the list
that carries the key as its topology-file label.  The map is the one
`destroyFn` hands to the preparation loop. -/
theorem destroyFn_all_labs_topology_map (w : World σ) (cfg : Config)
    (cnts : List GenericContainer) (ha : cfg.all = true) :
    ((toposOf w cfg cnts).map Prod.fst).Nodup ∧
      (∀ k : String, k ∈ (toposOf w cfg cnts).map Prod.fst ↔ k ∈ cnts.map (topoKey w)) ∧
      (toposOf w cfg cnts).length = ((cnts.map (topoKey w)).dedup).length ∧
      (∀ k v : String, (k, v) ∈ toposOf w cfg cnts ↔
        ∃ pre c post, cnts = pre ++ c :: post ∧ topoKey w c = k ∧
          (∀ d ∈ post, topoKey w d ≠ k) ∧ v = topoVal w c) ∧
      (∀ (s : σ) (labs : List CLab),
        (w.rangeOrder (toposOf w cfg cnts) s).Perm (toposOf w cfg cnts) →
        (prepareLabs w cfg (w.rangeOrder (toposOf w cfg cnts) s) [] s).val = Except.ok labs →
        labs.length = ((cnts.map (topoKey w)).dedup).length) ∧
      (∀ s : σ, ¬ (cfg.NodeFilter ≠ [] ∧ cfg.cleanup = true) →
        (listContainers w cfg cfg.Topo s).val = (cnts, none) → cnts ≠ [] →
        (destroyFn w cfg s).val =
            (destroyTopos w cfg (toposOf w cfg cnts)
              (listContainers w cfg cfg.Topo s).world).val ∧
          (destroyFn w cfg s).trace =
            (listContainers w cfg cfg.Topo s).trace ++
              (destroyTopos w cfg (toposOf w cfg cnts)
                (listContainers w cfg cfg.Topo s).world).trace) := by
  have ht : toposOf w cfg cnts = collectTopos w cnts := by
    unfold toposOf
    rw [if_neg (by simp [ha])]
  refine ⟨?_, ?_, ?_, ?_, ?_, ?_⟩
  · rw [ht]; exact collectTopos_keys_nodup w cnts
  · intro k; rw [ht]; exact collectTopos_keys_mem w cnts k
  · rw [ht]; exact collectTopos_length w cnts
  · intro k v; rw [ht]; exact collectTopos_mem w cnts k v
  · intro s labs hperm hp
    have h := prepareLabs_ok_length w cfg _ [] labs s hp
    rw [h, hperm.length_eq, ht, collectTopos_length]
    simp
  · intro s hv hl hne
    rw [destroyFn_nonempty w cfg s cnts hv hl hne]
    exact ⟨rfl, rfl⟩

theorem destroyFn_all_labs_topology_map_witness :
    toposOf twoLabs.world allCleanup twoLabs.containers =
        [("a.yml", "/labs/clab-a"), ("b.yml", "/labs/clab-b")] ∧
      ("a.yml", "/labs/clab-a") ∈ toposOf twoLabs.world allCleanup twoLabs.containers ∧
      [labA, labB].length = 2 :=
  have h := destroyFn_all_labs_topology_map twoLabs.world allCleanup twoLabs.containers
    (by decide)
  ⟨by decide,
    (h.2.2.2.1 "a.yml" "/labs/clab-a").2
      ⟨[labContainer "a" "a.yml" "/labs/clab-a/n1", labContainer "b" "b.yml" "/labs/clab-b/n1"],
        labContainer "a" "a.yml" "/labs/clab-a/n2", [], by decide, by decide, by decide,
        by decide⟩,
    h.2.2.2.2.1 2 [labA, labB] (List.Perm.refl _) rfl⟩

/-! ## Preparation in terms of the collaborators -/

theorem adjustLabDir_world_trace (w : World σ) (nc : CLab) (labdir : String) (s : σ) :
    (adjustLabDir w nc labdir s).world = worldAfterAdjust w labdir s ∧
      (adjustLabDir w nc labdir s).trace = adjustEvents w labdir s := by
  unfold worldAfterAdjust adjustEvents
  by_cases h1 : labdir = ""
  · unfold adjustLabDir
    simp [h1]
  · by_cases h2 : (w.FileOrDirExists labdir s).1 = true
    · rw [adjustLabDir_set w nc labdir s h1 h2, if_pos h1, if_pos h2, if_pos h1, if_pos h2]
      exact ⟨rfl, rfl⟩
    · unfold adjustLabDir
      rw [if_pos h1, if_neg h2, if_pos h1, if_neg h2, if_pos h1, if_neg h2]
      exact ⟨rfl, rfl⟩

theorem adjustLabDir_of_adjusted (w : World σ) (nc0 nc : CLab) (labdir : String) (s : σ)
    (h : Adjusted w labdir s nc0 nc) : (adjustLabDir w nc0 labdir s).val = Except.ok nc := by
  by_cases hg : labdir ≠ "" ∧ (w.FileOrDirExists labdir s).1 = true
  · obtain ⟨h1, h2⟩ := h.1 hg
    rw [adjustLabDir_set w nc0 labdir s hg.1 hg.2]
    dsimp only
    rw [h1, h2]
  · rw [(adjustLabDir_skip w nc0 labdir s hg).1, h.2 hg]

theorem adjusted_of_adjustLabDir (w : World σ) (nc0 nc : CLab) (labdir : String) (s : σ)
    (h : (adjustLabDir w nc0 labdir s).val = Except.ok nc) : Adjusted w labdir s nc0 nc := by
  by_cases hg : labdir ≠ "" ∧ (w.FileOrDirExists labdir s).1 = true
  · rw [adjustLabDir_set w nc0 labdir s hg.1 hg.2] at h
    dsimp only at h
    refine ⟨fun _ => ?_, fun hn => absurd hg hn⟩
    cases he : (w.SetLabDirErr labdir (w.FileOrDirExists labdir s).2).1 with
    | some e => rw [he] at h; cases h
    | none =>
      rw [he] at h
      cases h
      exact ⟨rfl, rfl⟩
  · rw [(adjustLabDir_skip w nc0 labdir s hg).1] at h
    cases h
    exact ⟨fun hp => absurd hp hg, fun _ => rfl⟩

theorem adjustLabDir_of_setLabDir_error (w : World σ) (nc0 : CLab) (labdir : String) (s : σ)
    (e : String) (h1 : labdir ≠ "") (h2 : (w.FileOrDirExists labdir s).1 = true)
    (h : (w.SetLabDirErr labdir (w.FileOrDirExists labdir s).2).1 = some e) :
    (adjustLabDir w nc0 labdir s).val = Except.error e := by
  rw [adjustLabDir_set w nc0 labdir s h1 h2]
  dsimp only
  rw [h]

theorem resolveLab_of_none (w : World σ) (nc : CLab) (s : σ)
    (h1 : (w.SetMgmtNetUnderlyingBridge nc.MgmtBridge s).1 = none)
    (h2 : (w.CreateNetwork nc (w.SetMgmtNetUnderlyingBridge nc.MgmtBridge s).2).1 = none)
    (h3 : (w.ResolveLinks nc
      (w.CreateNetwork nc (w.SetMgmtNetUnderlyingBridge nc.MgmtBridge s).2).2).1 = none) :
    resolveLab w nc s =
      ⟨Except.ok nc,
        (w.ResolveLinks nc
          (w.CreateNetwork nc (w.SetMgmtNetUnderlyingBridge nc.MgmtBridge s).2).2).2,
        [Event.SetMgmtNetUnderlyingBridge nc.MgmtBridge, Event.CreateNetwork nc,
          Event.ResolveLinks nc]⟩ := by
  unfold resolveLab
  simp only [h1, h2, h3]

theorem resolveLab_of_mgmt_error (w : World σ) (nc : CLab) (s : σ) (e : String)
    (h1 : (w.SetMgmtNetUnderlyingBridge nc.MgmtBridge s).1 = some e) :
    (resolveLab w nc s).val = Except.error e := by
  unfold resolveLab
  simp only [h1]

theorem resolveLab_of_network_error (w : World σ) (nc : CLab) (s : σ) (e : String)
    (h1 : (w.SetMgmtNetUnderlyingBridge nc.MgmtBridge s).1 = none)
    (h2 : (w.CreateNetwork nc (w.SetMgmtNetUnderlyingBridge nc.MgmtBridge s).2).1 = some e) :
    (resolveLab w nc s).val = Except.error e := by
  unfold resolveLab
  simp only [h1, h2]

theorem resolveLab_of_links_error (w : World σ) (nc : CLab) (s : σ) (e : String)
    (h1 : (w.SetMgmtNetUnderlyingBridge nc.MgmtBridge s).1 = none)
    (h2 : (w.CreateNetwork nc (w.SetMgmtNetUnderlyingBridge nc.MgmtBridge s).2).1 = none)
    (h3 : (w.ResolveLinks nc
      (w.CreateNetwork nc (w.SetMgmtNetUnderlyingBridge nc.MgmtBridge s).2).2).1 = some e) :
    (resolveLab w nc s).val = Except.error e := by
  unfold resolveLab
  simp only [h1, h2, h3]

theorem resolveLab_none_of_ok (w : World σ) (nc nc1 : CLab) (s : σ)
    (h : (resolveLab w nc s).val = Except.ok nc1) :
    (w.SetMgmtNetUnderlyingBridge nc.MgmtBridge s).1 = none ∧
      (w.CreateNetwork nc (w.SetMgmtNetUnderlyingBridge nc.MgmtBridge s).2).1 = none ∧
      (w.ResolveLinks nc
        (w.CreateNetwork nc (w.SetMgmtNetUnderlyingBridge nc.MgmtBridge s).2).2).1 = none := by
  cases h1 : (w.SetMgmtNetUnderlyingBridge nc.MgmtBridge s).1 with
  | some e => rw [resolveLab_of_mgmt_error w nc s e h1] at h; cases h
  | none =>
    cases h2 : (w.CreateNetwork nc (w.SetMgmtNetUnderlyingBridge nc.MgmtBridge s).2).1 with
    | some e => rw [resolveLab_of_network_error w nc s e h1 h2] at h; cases h
    | none =>
      cases h3 : (w.ResolveLinks nc
          (w.CreateNetwork nc (w.SetMgmtNetUnderlyingBridge nc.MgmtBridge s).2).2).1 with
      | some e => rw [resolveLab_of_links_error w nc s e h1 h2 h3] at h; cases h
      | none => exact ⟨rfl, rfl, rfl⟩

theorem prepareLab_of_succeeds (w : World σ) (cfg : Config) (topo labdir : String) (s : σ)
    (nc : CLab) (h : BuildSucceeds w cfg topo labdir s nc) :
    prepareLab w cfg topo labdir s =
      ⟨Except.ok nc, worldAfterBuild w cfg topo labdir s nc,
        buildEvents w cfg topo labdir s nc⟩ := by
  obtain ⟨nc0, h0, ha, h1, h2, h3⟩ := h
  have hwt := adjustLabDir_world_trace w nc0 labdir
    (w.NewContainerLab (destroyOpts cfg topo) s).2
  have hv := adjustLabDir_of_adjusted w nc0 nc labdir _ ha
  rw [prepareLab_of_ok w cfg topo labdir s nc0 h0]
  simp only [hv, hwt.1, hwt.2]
  unfold worldBeforeLinks worldBeforeNetwork worldBeforeMgmt at h3
  unfold worldBeforeNetwork worldBeforeMgmt at h2
  unfold worldBeforeMgmt at h1
  rw [resolveLab_of_none w nc _ h1 h2 h3]
  rfl

theorem prepareLab_succeeds_of_ok (w : World σ) (cfg : Config) (topo labdir : String) (s : σ)
    (nc : CLab) (h : (prepareLab w cfg topo labdir s).val = Except.ok nc) :
    BuildSucceeds w cfg topo labdir s nc := by
  rcases h0 : (w.NewContainerLab (destroyOpts cfg topo) s).1 with e | nc0
  · rw [prepareLab_of_error w cfg topo labdir s e h0] at h
    cases h
  · rw [prepareLab_of_ok w cfg topo labdir s nc0 h0] at h
    have hwt := adjustLabDir_world_trace w nc0 labdir
      (w.NewContainerLab (destroyOpts cfg topo) s).2
    cases hv : (adjustLabDir w nc0 labdir (w.NewContainerLab (destroyOpts cfg topo) s).2).val with
    | error e => rw [hv] at h; cases h
    | ok nc1 =>
      rw [hv] at h
      dsimp only at h
      have hnc := (resolveLab_ok w nc1 nc _ h).1
      subst hnc
      have hn := resolveLab_none_of_ok w nc nc _ h
      rw [hwt.1] at hn
      exact ⟨nc0, h0, adjusted_of_adjustLabDir w nc0 nc labdir _ hv, hn.1, hn.2.1, hn.2.2⟩

theorem prepareLab_of_fails (w : World σ) (cfg : Config) (topo labdir : String) (s : σ)
    (e : String) (h : BuildFails w cfg topo labdir s e) :
    (prepareLab w cfg topo labdir s).val = Except.error e := by
  cases h with
  | newContainerLab h => rw [prepareLab_of_error w cfg topo labdir s e h]
  | setLabDir nc0 h0 h1 h2 h =>
    rw [prepareLab_of_ok w cfg topo labdir s nc0 h0]
    simp only [adjustLabDir_of_setLabDir_error w nc0 labdir _ e h1 h2 h]
  | setMgmtNetUnderlyingBridge nc0 nc h0 ha h =>
    rw [prepareLab_of_ok w cfg topo labdir s nc0 h0]
    have hwt := adjustLabDir_world_trace w nc0 labdir
      (w.NewContainerLab (destroyOpts cfg topo) s).2
    simp only [adjustLabDir_of_adjusted w nc0 nc labdir _ ha, hwt.1]
    exact resolveLab_of_mgmt_error w nc _ e h
  | createNetwork nc0 nc h0 ha h1 h =>
    rw [prepareLab_of_ok w cfg topo labdir s nc0 h0]
    have hwt := adjustLabDir_world_trace w nc0 labdir
      (w.NewContainerLab (destroyOpts cfg topo) s).2
    simp only [adjustLabDir_of_adjusted w nc0 nc labdir _ ha, hwt.1]
    exact resolveLab_of_network_error w nc _ e h1 h
  | resolveLinks nc0 nc h0 ha h1 h2 h =>
    rw [prepareLab_of_ok w cfg topo labdir s nc0 h0]
    have hwt := adjustLabDir_world_trace w nc0 labdir
      (w.NewContainerLab (destroyOpts cfg topo) s).2
    simp only [adjustLabDir_of_adjusted w nc0 nc labdir _ ha, hwt.1]
    exact resolveLab_of_links_error w nc _ e h1 h2 h

theorem prepareLabs_of_all (w : World σ) (cfg : Config) (ents : List (String × String))
    (labs0 labs : List CLab) (s : σ) (h : AllBuildsSucceed w cfg ents s labs) :
    prepareLabs w cfg ents labs0 s =
      ⟨Except.ok (labs0 ++ labs), worldAfterBuilds w cfg ents s labs,
        allBuildEvents w cfg ents s labs⟩ := by
  induction ents generalizing labs0 labs s with
  | nil =>
    cases labs with
    | nil => simp [prepareLabs, worldAfterBuilds, allBuildEvents]
    | cons c cs => simp [AllBuildsSucceed] at h
  | cons ent rest ih =>
    obtain ⟨topo, labdir⟩ := ent
    cases labs with
    | nil => simp [AllBuildsSucceed] at h
    | cons nc labs1 =>
      simp only [AllBuildsSucceed] at h
      unfold prepareLabs
      rw [prepareLab_of_succeeds w cfg topo labdir s nc h.1]
      dsimp only
      rw [ih (labs0 ++ [nc]) labs1 _ h.2]
      simp [worldAfterBuilds, allBuildEvents]

theorem allBuildsSucceed_of_prepareLabs (w : World σ) (cfg : Config)
    (ents : List (String × String)) (labs0 labsAll : List CLab) (s : σ)
    (h : (prepareLabs w cfg ents labs0 s).val = Except.ok labsAll) :
    ∃ labs, labsAll = labs0 ++ labs ∧ AllBuildsSucceed w cfg ents s labs := by
  induction ents generalizing labs0 s with
  | nil =>
    simp only [prepareLabs] at h
    cases h
    exact ⟨[], by simp, by simp [AllBuildsSucceed]⟩
  | cons ent rest ih =>
    obtain ⟨topo, labdir⟩ := ent
    unfold prepareLabs at h
    cases hv : (prepareLab w cfg topo labdir s).val with
    | error e => rw [hv] at h; cases h
    | ok nc =>
      rw [hv] at h
      dsimp only at h
      have hs := prepareLab_succeeds_of_ok w cfg topo labdir s nc hv
      have hw : (prepareLab w cfg topo labdir s).world = worldAfterBuild w cfg topo labdir s nc := by
        rw [prepareLab_of_succeeds w cfg topo labdir s nc hs]
      rw [hw] at h
      obtain ⟨labs1, h1, h2⟩ := ih _ _ h
      refine ⟨nc :: labs1, by simp [h1], ?_⟩
      simp only [AllBuildsSucceed]
      exact ⟨hs, h2⟩

theorem prepareLabs_of_first_failure (w : World σ) (cfg : Config)
    (pre post : List (String × String)) (topo labdir : String) (labs0 labs : List CLab)
    (s : σ) (e : String) (hpre : AllBuildsSucceed w cfg pre s labs)
    (hfail : BuildFails w cfg topo labdir (worldAfterBuilds w cfg pre s labs) e) :
    prepareLabs w cfg (pre ++ (topo, labdir) :: post) labs0 s =
      ⟨Except.error e,
        (prepareLab w cfg topo labdir (worldAfterBuilds w cfg pre s labs)).world,
        allBuildEvents w cfg pre s labs ++
          (prepareLab w cfg topo labdir (worldAfterBuilds w cfg pre s labs)).trace⟩ := by
  induction pre generalizing labs0 labs s with
  | nil =>
    cases labs with
    | cons c cs => simp [AllBuildsSucceed] at hpre
    | nil =>
      simp only [worldAfterBuilds] at hfail ⊢
      simp only [List.nil_append, allBuildEvents]
      unfold prepareLabs
      simp only [prepareLab_of_fails w cfg topo labdir s e hfail]
  | cons ent rest ih =>
    obtain ⟨t1, l1⟩ := ent
    cases labs with
    | nil => simp [AllBuildsSucceed] at hpre
    | cons nc labs1 =>
      simp only [AllBuildsSucceed] at hpre
      simp only [worldAfterBuilds] at hfail ⊢
      simp only [List.cons_append]
      unfold prepareLabs
      rw [prepareLab_of_succeeds w cfg t1 l1 s nc hpre.1]
      dsimp only
      rw [ih (labs0 ++ [nc]) labs1 _ hpre.2 hfail]
      simp [allBuildEvents]

/-! ## Teardown in terms of the collaborators -/

theorem teardownLab_world_trace (w : World σ) (cfg : Config) (c : CLab) (errs : List String)
    (s : σ) :
    (teardownLab w cfg c errs s).world = worldAfterLab w cfg c s ∧
      (teardownLab w cfg c errs s).trace =
        Event.Destroy c cfg.maxWorkers cfg.keepMgmtNet
            (w.Destroy c cfg.maxWorkers cfg.keepMgmtNet s).1 ::
          (if cfg.cleanup = true then
            [Event.RemoveAll c.TopoPaths.TopologyLabDir
              (w.RemoveAll c.TopoPaths.TopologyLabDir
                (w.Destroy c cfg.maxWorkers cfg.keepMgmtNet s).2).1]
          else []) := by
  unfold teardownLab destroyLab worldAfterLab
  by_cases hc : cfg.cleanup = true
  · simp [hc]
  · simp [hc]

theorem teardownLabs_world_trace (w : World σ) (cfg : Config) (labs : List CLab)
    (errs : List String) (s : σ) :
    (teardownLabs w cfg labs errs s).world = worldAfterLabs w cfg labs s ∧
      (teardownLabs w cfg labs errs s).trace = teardownEvents w cfg labs s := by
  induction labs generalizing errs s with
  | nil => exact ⟨rfl, rfl⟩
  | cons c rest ih =>
    unfold teardownLabs
    dsimp only
    have h := teardownLab_world_trace w cfg c errs s
    rw [(ih _ _).1, (ih _ _).2, h.1, h.2]
    simp [worldAfterLabs, teardownEvents]

theorem destroyResults_length (w : World σ) (cfg : Config) (labs : List CLab) (s : σ) :
    (destroyResults w cfg labs s).length = labs.length := by
  induction labs generalizing s with
  | nil => rfl
  | cons c rest ih => simp [destroyResults, ih]

theorem removeResults_length (w : World σ) (cfg : Config) (labs : List CLab) (s : σ) :
    (removeResults w cfg labs s).length = labs.length := by
  induction labs generalizing s with
  | nil => rfl
  | cons c rest ih => simp [removeResults, ih]

theorem destroyOutcomes_append (a b : List Event) :
    destroyOutcomes (a ++ b) = destroyOutcomes a ++ destroyOutcomes b := by
  simp [destroyOutcomes]

theorem destroyOutcomes_teardownEvents (w : World σ) (cfg : Config) (labs : List CLab)
    (s : σ) :
    destroyOutcomes (teardownEvents w cfg labs s) = labs.zip (destroyResults w cfg labs s) := by
  induction labs generalizing s with
  | nil => rfl
  | cons c rest ih =>
    have h := ih (worldAfterLab w cfg c s)
    unfold destroyOutcomes at h ⊢
    by_cases hc : cfg.cleanup = true
    · simp [teardownEvents, destroyResults, Event.destroyOutcome, hc, h]
    · simp [teardownEvents, destroyResults, Event.destroyOutcome, hc, h]

theorem destroyErrs_teardownEvents (w : World σ) (cfg : Config) (labs : List CLab) (s : σ) :
    destroyErrs (teardownEvents w cfg labs s) = [] ↔
      ∀ e ∈ destroyResults w cfg labs s, e = none := by
  induction labs generalizing s with
  | nil => simp [teardownEvents, destroyResults, destroyErrs]
  | cons c rest ih =>
    have h := ih (worldAfterLab w cfg c s)
    unfold destroyErrs at h ⊢
    cases hd : (w.Destroy c cfg.maxWorkers cfg.keepMgmtNet s).1 with
    | none =>
      by_cases hc : cfg.cleanup = true
      · simp [teardownEvents, destroyResults, Event.destroyErr, hc, hd, h]
      · simp [teardownEvents, destroyResults, Event.destroyErr, hc, hd, h]
    | some e =>
      simp [teardownEvents, destroyResults, Event.destroyErr, hd]

theorem teardownEvents_cleanup (w : World σ) (cfg : Config) (labs : List CLab) (s : σ)
    (hc : cfg.cleanup = true) :
    teardownEvents w cfg labs s =
      cleanupTeardownTrace cfg labs
        ((destroyResults w cfg labs s).zip (removeResults w cfg labs s)) := by
  induction labs generalizing s with
  | nil => rfl
  | cons c rest ih =>
    rw [teardownEvents, destroyResults, removeResults, List.zip_cons_cons, cleanupTeardownTrace,
      if_pos hc, ih]
    rfl

theorem teardownEvents_plain (w : World σ) (cfg : Config) (labs : List CLab) (s : σ)
    (hc : cfg.cleanup = false) :
    teardownEvents w cfg labs s = plainTeardownTrace cfg labs (destroyResults w cfg labs s) := by
  induction labs generalizing s with
  | nil => rfl
  | cons c rest ih =>
    simp [teardownEvents, destroyResults, plainTeardownTrace, hc, ih]

theorem removedDirs_teardownEvents (w : World σ) (cfg : Config) (labs : List CLab) (s : σ) :
    removedDirs (teardownEvents w cfg labs s) =
      if cfg.cleanup = true then labs.map (fun c => c.TopoPaths.TopologyLabDir) else [] := by
  induction labs generalizing s with
  | nil => simp [teardownEvents, removedDirs]
  | cons c rest ih =>
    have h := ih (worldAfterLab w cfg c s)
    unfold removedDirs at h ⊢
    by_cases hc : cfg.cleanup = true
    · simp [teardownEvents, Event.removed, hc] at h ⊢
      exact h
    · simp [teardownEvents, Event.removed, hc] at h ⊢
      exact h

theorem destroyCalls_teardownEvents (w : World σ) (cfg : Config) (labs : List CLab) (s : σ) :
    destroyCalls (teardownEvents w cfg labs s) = labs := by
  rw [← (teardownLabs_world_trace w cfg labs [] s).2]
  exact teardownLabs_destroyCalls w cfg labs [] s

theorem labDirsSet_teardownEvents (w : World σ) (cfg : Config) (labs : List CLab) (s : σ) :
    labDirsSet (teardownEvents w cfg labs s) = [] := by
  induction labs generalizing s with
  | nil => rfl
  | cons c rest ih =>
    have h := ih (worldAfterLab w cfg c s)
    unfold labDirsSet at h ⊢
    by_cases hc : cfg.cleanup = true
    · simp [teardownEvents, Event.labDirSet, hc, h]
    · simp [teardownEvents, Event.labDirSet, hc, h]

theorem destroyOutcomes_of_isBuild (tr : List Event) (h : ∀ e ∈ tr, e.isBuild = true) :
    destroyOutcomes tr = [] :=
  filterMap_none_of_isBuild _ _
    (fun e he => by cases e <;> simp_all [Event.isBuild, Event.destroyOutcome]) h

theorem destroyOutcomes_listContainers (w : World σ) (cfg : Config) (topo : String) (s : σ) :
    destroyOutcomes (listContainers w cfg topo s).trace = [] :=
  filterMap_none_of_isDiscovery _ _
    (fun e he => by cases e <;> simp_all [Event.isDiscovery, Event.destroyOutcome])
    (listContainers_trace_isDiscovery w cfg topo s)

theorem allBuildEvents_isBuild (w : World σ) (cfg : Config) (ents : List (String × String))
    (s : σ) (labs : List CLab) (h : AllBuildsSucceed w cfg ents s labs) :
    ∀ e ∈ allBuildEvents w cfg ents s labs, e.isBuild = true := by
  have h1 := prepareLabs_trace_isBuild w cfg ents [] s
  rw [prepareLabs_of_all w cfg ents [] labs s h] at h1
  exact h1

/-- What `destroyFn` does once discovery has returned a non-empty list and
every preparation step succeeds. -/
theorem destroyFn_of_all_builds (w : World σ) (cfg : Config) (s : σ)
    (cnts : List GenericContainer) (labs : List CLab)
    (hv : ¬ (cfg.NodeFilter ≠ [] ∧ cfg.cleanup = true))
    (hl : (listContainers w cfg cfg.Topo s).val = (cnts, none)) (hne : cnts ≠ [])
    (hb : AllBuildsSucceed w cfg
        (w.rangeOrder (toposOf w cfg cnts) (listContainers w cfg cfg.Topo s).world)
        (listContainers w cfg cfg.Topo s).world labs) :
    destroyFn w cfg s =
      ⟨if destroyErrs (teardownEvents w cfg labs
            (worldAfterBuilds w cfg
              (w.rangeOrder (toposOf w cfg cnts) (listContainers w cfg cfg.Topo s).world)
              (listContainers w cfg cfg.Topo s).world labs)) = [] then none
          else some "error(s) occurred during the deletion. Check log messages",
        worldAfterLabs w cfg labs
          (worldAfterBuilds w cfg
            (w.rangeOrder (toposOf w cfg cnts) (listContainers w cfg cfg.Topo s).world)
            (listContainers w cfg cfg.Topo s).world labs),
        (listContainers w cfg cfg.Topo s).trace ++
          (allBuildEvents w cfg
              (w.rangeOrder (toposOf w cfg cnts) (listContainers w cfg cfg.Topo s).world)
              (listContainers w cfg cfg.Topo s).world labs ++
            teardownEvents w cfg labs
              (worldAfterBuilds w cfg
                (w.rangeOrder (toposOf w cfg cnts) (listContainers w cfg cfg.Topo s).world)
                (listContainers w cfg cfg.Topo s).world labs))⟩ := by
  have hp := prepareLabs_of_all w cfg _ [] labs _ hb
  have hpv : (prepareLabs w cfg
      (w.rangeOrder (toposOf w cfg cnts) (listContainers w cfg cfg.Topo s).world) []
      (listContainers w cfg cfg.Topo s).world).val = Except.ok labs := by
    rw [hp]; rfl
  rw [destroyFn_nonempty w cfg s cnts hv hl hne, destroyTopos_of_ok w cfg _ _ labs hpv]
  rw [hp]
  dsimp only
  rw [(teardownLabs_world_trace w cfg labs [] _).1, (teardownLabs_world_trace w cfg labs [] _).2]

/-! ## The batch -/

/-- C3: with a valid configuration, a successful discovery of at least one
container and a preparation whose every step succeeds for every entry of the
topology map (yielding the labs `labs`), `Destroy` is called on exactly the
labs `labs`, once each and in order, each call acting on the world left by the
previous lab's iteration and the error recorded being the one that call
returned (so a failing `Destroy` does not stop the following ones); the world
`destroyFn` leaves is the one left by all these iterations; and `destroyFn`
returns `nil` exactly when every one of these `Destroy` calls returned `nil`,
the error "error(s) occurred during the deletion. Check log messages"
otherwise. -/
theorem destroyFn_destroys_every_prepared_lab (w : World σ) (cfg : Config) (s : σ)
    (cnts : List GenericContainer) (labs : List CLab)
    (hv : ¬ (cfg.NodeFilter ≠ [] ∧ cfg.cleanup = true))
    (hl : (listContainers w cfg cfg.Topo s).val = (cnts, none)) (hne : cnts ≠ [])
    (hb : AllBuildsSucceed w cfg
        (w.rangeOrder (toposOf w cfg cnts) (listContainers w cfg cfg.Topo s).world)
        (listContainers w cfg cfg.Topo s).world labs) :
    destroyCalls (destroyFn w cfg s).trace = labs ∧
      destroyOutcomes (destroyFn w cfg s).trace =
        labs.zip (destroyResults w cfg labs
          (worldAfterBuilds w cfg
            (w.rangeOrder (toposOf w cfg cnts) (listContainers w cfg cfg.Topo s).world)
            (listContainers w cfg cfg.Topo s).world labs)) ∧
      (destroyFn w cfg s).world =
        worldAfterLabs w cfg labs
          (worldAfterBuilds w cfg
            (w.rangeOrder (toposOf w cfg cnts) (listContainers w cfg cfg.Topo s).world)
            (listContainers w cfg cfg.Topo s).world labs) ∧
      ((destroyFn w cfg s).val = none ↔
        ∀ e ∈ destroyResults w cfg labs
          (worldAfterBuilds w cfg
            (w.rangeOrder (toposOf w cfg cnts) (listContainers w cfg cfg.Topo s).world)
            (listContainers w cfg cfg.Topo s).world labs), e = none) ∧
      ((destroyFn w cfg s).val = none ↔ destroyErrs (destroyFn w cfg s).trace = []) ∧
      ((destroyFn w cfg s).val ≠ none ↔
        ∃ c mw k e, Event.Destroy c mw k (some e) ∈ (destroyFn w cfg s).trace) ∧
      ((destroyFn w cfg s).val ≠ none →
        (destroyFn w cfg s).val =
          some "error(s) occurred during the deletion. Check log messages") ∧
      (prepareLabs w cfg
        (w.rangeOrder (toposOf w cfg cnts) (listContainers w cfg cfg.Topo s).world) []
        (listContainers w cfg cfg.Topo s).world).val = Except.ok labs := by
  have hb2 := allBuildEvents_isBuild w cfg _ _ labs hb
  have hval : (destroyFn w cfg s).val = none ↔ destroyErrs (destroyFn w cfg s).trace = [] := by
    rw [destroyFn_of_all_builds w cfg s cnts labs hv hl hne hb]
    dsimp only
    rw [destroyErrs_append, destroyErrs_append, destroyErrs_listContainers,
      destroyErrs_of_isBuild _ hb2]
    simp only [List.nil_append]
    split <;> simp_all
  refine ⟨?_, ?_, ?_, ?_, hval, ?_, ?_, ?_⟩
  · rw [destroyFn_of_all_builds w cfg s cnts labs hv hl hne hb]
    dsimp only
    rw [destroyCalls_append, destroyCalls_append, destroyCalls_listContainers,
      destroyCalls_of_isBuild _ hb2, destroyCalls_teardownEvents]
    rfl
  · rw [destroyFn_of_all_builds w cfg s cnts labs hv hl hne hb]
    dsimp only
    rw [destroyOutcomes_append, destroyOutcomes_append, destroyOutcomes_listContainers,
      destroyOutcomes_of_isBuild _ hb2, destroyOutcomes_teardownEvents]
    rfl
  · rw [destroyFn_of_all_builds w cfg s cnts labs hv hl hne hb]
  · rw [← destroyErrs_teardownEvents, destroyFn_of_all_builds w cfg s cnts labs hv hl hne hb]
    dsimp only
    split <;> simp_all
  · rw [← destroyErrs_ne_nil_iff]
    exact not_congr hval
  · rw [destroyFn_of_all_builds w cfg s cnts labs hv hl hne hb]
    dsimp only
    split
    · intro h; exact absurd rfl h
    · intro _; rfl
  · rw [prepareLabs_of_all w cfg _ [] labs _ hb]
    rfl

theorem destroyFn_destroys_every_prepared_lab_witness :
    destroyCalls (destroyFn twoLabs.world allCleanup 0).trace = [labA, labB] ∧
      destroyOutcomes (destroyFn twoLabs.world allCleanup 0).trace =
        [(labA, some "node removal failed"), (labB, none)] ∧
      (destroyFn twoLabs.world allCleanup 0).val =
        some "error(s) occurred during the deletion. Check log messages" :=
  have h := destroyFn_destroys_every_prepared_lab twoLabs.world allCleanup 0
    twoLabs.containers [labA, labB] (by decide) (by decide) (by decide)
    ⟨⟨{ Name := "a.yml", MgmtBridge := "clab", TopoPaths := { labDir := "/cwd/clab-a.yml" } },
        rfl, ⟨fun _ => ⟨rfl, rfl⟩, fun hn => absurd ⟨by decide, by decide⟩ hn⟩, rfl, rfl, rfl⟩,
      ⟨{ Name := "b.yml", MgmtBridge := "clab", TopoPaths := { labDir := "/cwd/clab-b.yml" } },
        rfl, ⟨fun _ => ⟨rfl, rfl⟩, fun hn => absurd ⟨by decide, by decide⟩ hn⟩, rfl, rfl, rfl⟩,
      trivial⟩
  ⟨h.1, h.2.1, h.2.2.2.2.2.2.1 (by decide)⟩

/-- C6: once the teardown phase is reached (valid configuration, at least one
container discovered, every preparation step succeeded, yielding `labs`), the
calls of `destroyFn` are those of discovery and preparation followed by the
teardown calls.  With `cleanup` set these are, for every prepared lab in turn,
its `Destroy` and then `os.RemoveAll` of its `TopologyLabDir`, applied to the
world `Destroy` left and whatever `Destroy` returned: one removal per prepared
lab, each after its lab's `Destroy`, and the world `destroyFn` leaves is the
one these calls produce.  The value returned is `nil` exactly when every
`Destroy` returned `nil`: what the removals return does not enter it.  With
`cleanup` unset the teardown consists of the `Destroy` calls only and no
directory is removed in the whole run. -/
theorem destroyFn_cleanup_after_each_destroy (w : World σ) (cfg : Config) (s : σ)
    (cnts : List GenericContainer) (labs : List CLab)
    (hv : ¬ (cfg.NodeFilter ≠ [] ∧ cfg.cleanup = true))
    (hl : (listContainers w cfg cfg.Topo s).val = (cnts, none)) (hne : cnts ≠ [])
    (hb : AllBuildsSucceed w cfg
        (w.rangeOrder (toposOf w cfg cnts) (listContainers w cfg cfg.Topo s).world)
        (listContainers w cfg cfg.Topo s).world labs) :
    (destroyFn w cfg s).trace =
        (listContainers w cfg cfg.Topo s).trace ++
          (allBuildEvents w cfg
              (w.rangeOrder (toposOf w cfg cnts) (listContainers w cfg cfg.Topo s).world)
              (listContainers w cfg cfg.Topo s).world labs ++
            teardownEvents w cfg labs
              (worldAfterBuilds w cfg
                (w.rangeOrder (toposOf w cfg cnts) (listContainers w cfg cfg.Topo s).world)
                (listContainers w cfg cfg.Topo s).world labs)) ∧
      (destroyFn w cfg s).world =
        worldAfterLabs w cfg labs
          (worldAfterBuilds w cfg
            (w.rangeOrder (toposOf w cfg cnts) (listContainers w cfg cfg.Topo s).world)
            (listContainers w cfg cfg.Topo s).world labs) ∧
      ((destroyFn w cfg s).val = none ↔
        ∀ e ∈ destroyResults w cfg labs
          (worldAfterBuilds w cfg
            (w.rangeOrder (toposOf w cfg cnts) (listContainers w cfg cfg.Topo s).world)
            (listContainers w cfg cfg.Topo s).world labs), e = none) ∧
      (cfg.cleanup = true →
        teardownEvents w cfg labs
            (worldAfterBuilds w cfg
              (w.rangeOrder (toposOf w cfg cnts) (listContainers w cfg cfg.Topo s).world)
              (listContainers w cfg cfg.Topo s).world labs) =
          cleanupTeardownTrace cfg labs
            ((destroyResults w cfg labs
                (worldAfterBuilds w cfg
                  (w.rangeOrder (toposOf w cfg cnts) (listContainers w cfg cfg.Topo s).world)
                  (listContainers w cfg cfg.Topo s).world labs)).zip
              (removeResults w cfg labs
                (worldAfterBuilds w cfg
                  (w.rangeOrder (toposOf w cfg cnts) (listContainers w cfg cfg.Topo s).world)
                  (listContainers w cfg cfg.Topo s).world labs))) ∧
        (removeResults w cfg labs
          (worldAfterBuilds w cfg
            (w.rangeOrder (toposOf w cfg cnts) (listContainers w cfg cfg.Topo s).world)
            (listContainers w cfg cfg.Topo s).world labs)).length = labs.length ∧
        removedDirs (destroyFn w cfg s).trace =
          labs.map (fun c => c.TopoPaths.TopologyLabDir)) ∧
      (cfg.cleanup = false →
        teardownEvents w cfg labs
            (worldAfterBuilds w cfg
              (w.rangeOrder (toposOf w cfg cnts) (listContainers w cfg cfg.Topo s).world)
              (listContainers w cfg cfg.Topo s).world labs) =
          plainTeardownTrace cfg labs
            (destroyResults w cfg labs
              (worldAfterBuilds w cfg
                (w.rangeOrder (toposOf w cfg cnts) (listContainers w cfg cfg.Topo s).world)
                (listContainers w cfg cfg.Topo s).world labs)) ∧
        removedDirs (destroyFn w cfg s).trace = []) := by
  have hb2 := allBuildEvents_isBuild w cfg _ _ labs hb
  have hrm : removedDirs (destroyFn w cfg s).trace =
      if cfg.cleanup = true then labs.map (fun c => c.TopoPaths.TopologyLabDir) else [] := by
    rw [destroyFn_of_all_builds w cfg s cnts labs hv hl hne hb]
    dsimp only
    rw [removedDirs_append, removedDirs_append, removedDirs_listContainers,
      removedDirs_of_isBuild _ hb2, removedDirs_teardownEvents]
    rfl
  refine ⟨?_, ?_, ?_, ?_, ?_⟩
  · rw [destroyFn_of_all_builds w cfg s cnts labs hv hl hne hb]
  · rw [destroyFn_of_all_builds w cfg s cnts labs hv hl hne hb]
  · rw [← destroyErrs_teardownEvents, destroyFn_of_all_builds w cfg s cnts labs hv hl hne hb]
    dsimp only
    split <;> simp_all
  · intro hc
    refine ⟨teardownEvents_cleanup w cfg labs _ hc, removeResults_length w cfg labs _, ?_⟩
    rw [hrm, if_pos hc]
  · intro hc
    refine ⟨teardownEvents_plain w cfg labs _ hc, ?_⟩
    rw [hrm, if_neg (by simp [hc])]

theorem destroyFn_cleanup_after_each_destroy_witness :
    removedDirs (destroyFn twoLabs.world allCleanup 0).trace =
        ["/labs/clab-a", "/labs/clab-b"] ∧
      (destroyFn twoLabs.world allCleanup 0).world = 18 :=
  have h := destroyFn_cleanup_after_each_destroy twoLabs.world allCleanup 0
    twoLabs.containers [labA, labB] (by decide) (by decide) (by decide)
    ⟨⟨{ Name := "a.yml", MgmtBridge := "clab", TopoPaths := { labDir := "/cwd/clab-a.yml" } },
        rfl, ⟨fun _ => ⟨rfl, rfl⟩, fun hn => absurd ⟨by decide, by decide⟩ hn⟩, rfl, rfl, rfl⟩,
      ⟨{ Name := "b.yml", MgmtBridge := "clab", TopoPaths := { labDir := "/cwd/clab-b.yml" } },
        rfl, ⟨fun _ => ⟨rfl, rfl⟩, fun hn => absurd ⟨by decide, by decide⟩ hn⟩, rfl, rfl, rfl⟩,
      trivial⟩
  ⟨(h.2.2.2.1 (by decide)).2.2, h.2.1⟩

theorem resolveLab_newLabCalls (w : World σ) (nc : CLab) (s : σ) :
    newLabCalls (resolveLab w nc s).trace = [] := by
  unfold resolveLab
  cases (w.SetMgmtNetUnderlyingBridge nc.MgmtBridge s).1 with
  | some e => simp [newLabCalls, Event.newLab]
  | none =>
    dsimp only
    cases (w.CreateNetwork nc (w.SetMgmtNetUnderlyingBridge nc.MgmtBridge s).2).1 with
    | some e => simp [newLabCalls, Event.newLab]
    | none =>
      dsimp only
      cases (w.ResolveLinks nc (w.CreateNetwork nc
        (w.SetMgmtNetUnderlyingBridge nc.MgmtBridge s).2).2).1 <;>
        simp [newLabCalls, Event.newLab]

theorem adjustLabDir_newLabCalls (w : World σ) (nc : CLab) (labdir : String) (s : σ) :
    newLabCalls (adjustLabDir w nc labdir s).trace = [] := by
  rw [(adjustLabDir_world_trace w nc labdir s).2]
  unfold adjustEvents
  by_cases h1 : labdir = ""
  · simp [h1, newLabCalls]
  · by_cases h2 : (w.FileOrDirExists labdir s).1 = true
    · simp [h1, h2, newLabCalls, Event.newLab]
    · simp [h1, h2, newLabCalls, Event.newLab]

theorem prepareLab_newLabCalls (w : World σ) (cfg : Config) (topo labdir : String) (s : σ) :
    newLabCalls (prepareLab w cfg topo labdir s).trace = [destroyOpts cfg topo] := by
  rcases h : (w.NewContainerLab (destroyOpts cfg topo) s).1 with e | nc0
  · rw [prepareLab_of_error w cfg topo labdir s e h]
    simp [newLabCalls, Event.newLab]
  · rw [prepareLab_of_ok w cfg topo labdir s nc0 h]
    have ha := adjustLabDir_newLabCalls w nc0 labdir
      (w.NewContainerLab (destroyOpts cfg topo) s).2
    cases hv : (adjustLabDir w nc0 labdir (w.NewContainerLab (destroyOpts cfg topo) s).2).val with
    | error e =>
      dsimp only
      rw [show ∀ (x : Event) (l : List Event), x :: l = [x] ++ l from fun _ _ => rfl,
        newLabCalls_append, ha]
      rfl
    | ok nc =>
      dsimp only
      rw [show ∀ (x : Event) (l : List Event), x :: l = [x] ++ l from fun _ _ => rfl,
        newLabCalls_append, newLabCalls_append, ha, resolveLab_newLabCalls]
      rfl

theorem allBuildEvents_newLabCalls (w : World σ) (cfg : Config)
    (ents : List (String × String)) (s : σ) (labs : List CLab)
    (h : AllBuildsSucceed w cfg ents s labs) :
    newLabCalls (allBuildEvents w cfg ents s labs) =
      ents.map (fun p => destroyOpts cfg p.1) := by
  induction ents generalizing s labs with
  | nil => simp [allBuildEvents, newLabCalls]
  | cons ent rest ih =>
    obtain ⟨topo, labdir⟩ := ent
    cases labs with
    | nil => simp [AllBuildsSucceed] at h
    | cons nc labs1 =>
      simp only [AllBuildsSucceed] at h
      have h1 := prepareLab_newLabCalls w cfg topo labdir s
      rw [prepareLab_of_succeeds w cfg topo labdir s nc h.1] at h1
      simp only [allBuildEvents, newLabCalls_append, List.map_cons]
      rw [h1, ih _ _ h.2]
      rfl

/-- C2, as the code behaves: with a valid configuration and at least one
container discovered, let the map range visit the entries
`pre ++ (topo, labdir) :: post`, the preparation of the entries `pre` succeed
at every step, and one of the five steps of the preparation of `(topo, labdir)`
(`NewContainerLab`, `SetLabDir`, `SetMgmtNetUnderlyingBridge`, `CreateNetwork`
or `ResolveLinks`) return the error `e`.  Then `destroyFn` returns `e` and
stops: its calls are those of discovery, of the preparation of `pre` and of
the preparation of `(topo, labdir)` up to the failing step; no lab of `post` is
built, `Destroy` is called on no lab (not on those of `pre` either) and no
directory is removed. -/
theorem destroyFn_build_failure_aborts_batch (w : World σ) (cfg : Config) (s : σ)
    (cnts : List GenericContainer) (pre post : List (String × String))
    (topo labdir : String) (labs : List CLab) (e : String)
    (hv : ¬ (cfg.NodeFilter ≠ [] ∧ cfg.cleanup = true))
    (hl : (listContainers w cfg cfg.Topo s).val = (cnts, none)) (hne : cnts ≠ [])
    (horder : w.rangeOrder (toposOf w cfg cnts) (listContainers w cfg cfg.Topo s).world =
      pre ++ (topo, labdir) :: post)
    (hpre : AllBuildsSucceed w cfg pre (listContainers w cfg cfg.Topo s).world labs)
    (hfail : BuildFails w cfg topo labdir
      (worldAfterBuilds w cfg pre (listContainers w cfg cfg.Topo s).world labs) e) :
    (destroyFn w cfg s).val = some e ∧
      destroyCalls (destroyFn w cfg s).trace = [] ∧
      removedDirs (destroyFn w cfg s).trace = [] ∧
      newLabCalls (destroyFn w cfg s).trace =
        listOpts cfg cfg.Topo ::
          (pre.map (fun p => destroyOpts cfg p.1) ++ [destroyOpts cfg topo]) ∧
      (destroyFn w cfg s).trace =
        (listContainers w cfg cfg.Topo s).trace ++
          (allBuildEvents w cfg pre (listContainers w cfg cfg.Topo s).world labs ++
            (prepareLab w cfg topo labdir
              (worldAfterBuilds w cfg pre
                (listContainers w cfg cfg.Topo s).world labs)).trace) ∧
      (destroyFn w cfg s).world =
        (prepareLab w cfg topo labdir
          (worldAfterBuilds w cfg pre (listContainers w cfg cfg.Topo s).world labs)).world := by
  have hp := prepareLabs_of_first_failure w cfg pre post topo labdir [] labs
    (listContainers w cfg cfg.Topo s).world e hpre hfail
  rw [← horder] at hp
  have hpv : (prepareLabs w cfg
      (w.rangeOrder (toposOf w cfg cnts) (listContainers w cfg cfg.Topo s).world) []
      (listContainers w cfg cfg.Topo s).world).val = Except.error e := by
    rw [hp]
  have hb1 := allBuildEvents_isBuild w cfg pre _ labs hpre
  have hb2 := prepareLab_trace_isBuild w cfg topo labdir
    (worldAfterBuilds w cfg pre (listContainers w cfg cfg.Topo s).world labs)
  rw [destroyFn_nonempty w cfg s cnts hv hl hne, destroyTopos_of_error w cfg _ _ e hpv, hp]
  dsimp only
  refine ⟨rfl, ?_, ?_, ?_, rfl, rfl⟩
  · rw [destroyCalls_append, destroyCalls_append, destroyCalls_listContainers,
      destroyCalls_of_isBuild _ hb1, destroyCalls_of_isBuild _ hb2]
    rfl
  · rw [removedDirs_append, removedDirs_append, removedDirs_listContainers,
      removedDirs_of_isBuild _ hb1, removedDirs_of_isBuild _ hb2]
    rfl
  · rw [newLabCalls_append, newLabCalls_append, listContainers_newLabCalls,
      allBuildEvents_newLabCalls w cfg pre _ labs hpre, prepareLab_newLabCalls]
    rfl

theorem destroyFn_build_failure_aborts_batch_witness :
    (destroyFn networkFails.world allCleanup 0).val = some "network unavailable" ∧
      destroyCalls (destroyFn networkFails.world allCleanup 0).trace = [] ∧
      removedDirs (destroyFn networkFails.world allCleanup 0).trace = [] :=
  have h := destroyFn_build_failure_aborts_batch networkFails.world allCleanup 0
    networkFails.containers [("a.yml", "/labs/clab-a")] [] "b.yml" "/labs/clab-b" [labA]
    "network unavailable" (by decide) (by decide) (by decide) (by decide)
    ⟨⟨{ Name := "a.yml", MgmtBridge := "clab", TopoPaths := { labDir := "/cwd/clab-a.yml" } },
        rfl, ⟨fun _ => ⟨rfl, rfl⟩, fun hn => absurd ⟨by decide, by decide⟩ hn⟩, rfl, rfl, rfl⟩,
      trivial⟩
    (BuildFails.createNetwork
      { Name := "b.yml", MgmtBridge := "clab", TopoPaths := { labDir := "/cwd/clab-b.yml" } }
      labB rfl ⟨fun _ => ⟨rfl, rfl⟩, fun hn => absurd ⟨by decide, by decide⟩ hn⟩ rfl rfl)
  ⟨h.1, h.2.1, h.2.2.1⟩

/-- C2, counterexample: two labs are discovered (`a.yml` and `b.yml`); building
the lab of `a.yml` succeeds in every state and building the lab of `b.yml`
fails.  Whichever of the two the map range visits first, `destroyFn` returns
the build error and `Destroy` is not called on the lab of `a.yml` (nor on any
other). -/
theorem destroyFn_build_failure_skips_other_labs :
    toposOf (secondLabFails false).world allCleanup (secondLabFails false).containers =
        [("a.yml", "/labs/clab-a"), ("b.yml", "/labs/clab-b")] ∧
      (∀ n : Nat, (prepareLab (secondLabFails false).world allCleanup "a.yml" "/labs/clab-a"
        n).val = Except.ok labA) ∧
      (∀ n : Nat, (prepareLab (secondLabFails false).world allCleanup "b.yml" "/labs/clab-b"
        n).val = Except.error "bad topology") ∧
      (destroyFn (secondLabFails false).world allCleanup 0).val = some "bad topology" ∧
      labA ∉ destroyCalls (destroyFn (secondLabFails false).world allCleanup 0).trace ∧
      (destroyFn (secondLabFails true).world allCleanup 0).val = some "bad topology" ∧
      labA ∉ destroyCalls (destroyFn (secondLabFails true).world allCleanup 0).trace :=
  ⟨by decide, fun _ => rfl, fun _ => rfl, by decide, by decide, by decide, by decide⟩

theorem allBuildsSucceed_zip (w : World σ) (cfg : Config) (ents : List (String × String))
    (s : σ) (labs : List CLab) (h : AllBuildsSucceed w cfg ents s labs) :
    ∀ (topo labdir : String) (nc : CLab), ((topo, labdir), nc) ∈ ents.zip labs →
      ∃ (s0 : σ) (nc0 : CLab),
        (w.NewContainerLab (destroyOpts cfg topo) s0).1 = Except.ok nc0 ∧
        Adjusted w labdir (w.NewContainerLab (destroyOpts cfg topo) s0).2 nc0 nc ∧
        (labdir ≠ "" ∧
            (w.FileOrDirExists labdir (w.NewContainerLab (destroyOpts cfg topo) s0).2).1 = true →
          Event.SetLabDir labdir none ∈ allBuildEvents w cfg ents s labs) := by
  induction ents generalizing s labs with
  | nil => intro topo labdir nc hm; simp at hm
  | cons ent rest ih =>
    obtain ⟨t1, l1⟩ := ent
    cases labs with
    | nil => simp [AllBuildsSucceed] at h
    | cons c labs1 =>
      simp only [AllBuildsSucceed] at h
      intro topo labdir nc hm
      rw [List.zip_cons_cons, List.mem_cons] at hm
      rcases hm with hm | hm
      · cases hm
        obtain ⟨nc0, h0, ha, _⟩ := h.1
        refine ⟨s, nc0, h0, ha, ?_⟩
        intro hg
        have he := (ha.1 hg).1
        simp only [allBuildEvents, buildEvents, adjustEvents, if_pos hg.1, if_pos hg.2, he]
        simp
      · obtain ⟨s0, nc0, h0, ha, hmem⟩ := ih _ _ h.2 topo labdir nc hm
        refine ⟨s0, nc0, h0, ha, ?_⟩
        intro hg
        simp only [allBuildEvents]
        exact List.mem_append_right _ (hmem hg)

/-- C9, as the code behaves: with a valid configuration and at least one
container discovered, let the preparation loop succeed with the labs `labs` for
the entries `(topo, labdir)` of the topology map, in range order.  Then every
step of every preparation succeeded, and each prepared lab is the lab
`NewContainerLab` built for its entry, with `labdir` as its `TopologyLabDir`
when `labdir` is non-empty and `FileOrDirExists labdir` held (then
`SetLabDir labdir` was called and returned `nil`), and unchanged otherwise.
The calls of `destroyFn` are those of discovery, then for every entry
`NewContainerLab`, the existence check and `SetLabDir`, and only then
`SetMgmtNetUnderlyingBridge`, `CreateNetwork` and `ResolveLinks`, then the
teardown: no `Destroy` precedes a `SetLabDir`.  `Destroy` is called on exactly
these labs and with `cleanup` set the directories removed are their
`TopologyLabDir`s. -/
theorem destroyFn_overrides_existing_labdir (w : World σ) (cfg : Config) (s : σ)
    (cnts : List GenericContainer) (labs : List CLab)
    (hv : ¬ (cfg.NodeFilter ≠ [] ∧ cfg.cleanup = true))
    (hl : (listContainers w cfg cfg.Topo s).val = (cnts, none)) (hne : cnts ≠ [])
    (hp : (prepareLabs w cfg
        (w.rangeOrder (toposOf w cfg cnts) (listContainers w cfg cfg.Topo s).world) []
        (listContainers w cfg cfg.Topo s).world).val = Except.ok labs) :
    AllBuildsSucceed w cfg
        (w.rangeOrder (toposOf w cfg cnts) (listContainers w cfg cfg.Topo s).world)
        (listContainers w cfg cfg.Topo s).world labs ∧
      (∀ (topo labdir : String) (nc : CLab),
        ((topo, labdir), nc) ∈
          (w.rangeOrder (toposOf w cfg cnts) (listContainers w cfg cfg.Topo s).world).zip labs →
        ∃ (s0 : σ) (nc0 : CLab),
          (w.NewContainerLab (destroyOpts cfg topo) s0).1 = Except.ok nc0 ∧
          (labdir ≠ "" ∧
              (w.FileOrDirExists labdir
                (w.NewContainerLab (destroyOpts cfg topo) s0).2).1 = true →
            nc = { nc0 with TopoPaths := { labDir := labdir } } ∧
            nc.TopoPaths.TopologyLabDir = labdir ∧
            Event.SetLabDir labdir none ∈ (destroyFn w cfg s).trace) ∧
          (¬ (labdir ≠ "" ∧
              (w.FileOrDirExists labdir
                (w.NewContainerLab (destroyOpts cfg topo) s0).2).1 = true) →
            nc = nc0)) ∧
      (destroyFn w cfg s).trace =
        (listContainers w cfg cfg.Topo s).trace ++
          (allBuildEvents w cfg
              (w.rangeOrder (toposOf w cfg cnts) (listContainers w cfg cfg.Topo s).world)
              (listContainers w cfg cfg.Topo s).world labs ++
            teardownEvents w cfg labs
              (worldAfterBuilds w cfg
                (w.rangeOrder (toposOf w cfg cnts) (listContainers w cfg cfg.Topo s).world)
                (listContainers w cfg cfg.Topo s).world labs)) ∧
      destroyCalls ((listContainers w cfg cfg.Topo s).trace ++
        allBuildEvents w cfg
          (w.rangeOrder (toposOf w cfg cnts) (listContainers w cfg cfg.Topo s).world)
          (listContainers w cfg cfg.Topo s).world labs) = [] ∧
      labDirsSet (teardownEvents w cfg labs
        (worldAfterBuilds w cfg
          (w.rangeOrder (toposOf w cfg cnts) (listContainers w cfg cfg.Topo s).world)
          (listContainers w cfg cfg.Topo s).world labs)) = [] ∧
      destroyCalls (destroyFn w cfg s).trace = labs ∧
      (cfg.cleanup = true →
        removedDirs (destroyFn w cfg s).trace =
          labs.map (fun c => c.TopoPaths.TopologyLabDir)) := by
  obtain ⟨labs1, hl1, hb⟩ := allBuildsSucceed_of_prepareLabs w cfg _ [] labs _ hp
  rw [List.nil_append] at hl1
  subst hl1
  have hb2 := allBuildEvents_isBuild w cfg _ _ labs hb
  have htr := congrArg Out.trace (destroyFn_of_all_builds w cfg s cnts labs hv hl hne hb)
  dsimp only at htr
  refine ⟨hb, ?_, htr, ?_, labDirsSet_teardownEvents w cfg labs _, ?_, ?_⟩
  · intro topo labdir nc hm
    obtain ⟨s0, nc0, h0, ha, hmem⟩ := allBuildsSucceed_zip w cfg _ _ labs hb topo labdir nc hm
    refine ⟨s0, nc0, h0, ?_, ha.2⟩
    intro hg
    have hnc := (ha.1 hg).2
    refine ⟨hnc, by rw [hnc]; rfl, ?_⟩
    rw [htr]
    exact List.mem_append_right _ (List.mem_append_left _ (hmem hg))
  · rw [destroyCalls_append, destroyCalls_listContainers, destroyCalls_of_isBuild _ hb2]
    rfl
  · rw [htr, destroyCalls_append, destroyCalls_append, destroyCalls_listContainers,
      destroyCalls_of_isBuild _ hb2, destroyCalls_teardownEvents]
    rfl
  · intro hc
    rw [htr, removedDirs_append, removedDirs_append, removedDirs_listContainers,
      removedDirs_of_isBuild _ hb2, removedDirs_teardownEvents, if_pos hc]
    rfl

theorem destroyFn_overrides_existing_labdir_witness :
    labDirsSet (destroyFn twoLabs.world allCleanup 0).trace =
        ["/labs/clab-a", "/labs/clab-b"] ∧
      removedDirs (destroyFn twoLabs.world allCleanup 0).trace =
        ["/labs/clab-a", "/labs/clab-b"] :=
  have h := destroyFn_overrides_existing_labdir twoLabs.world allCleanup 0
    twoLabs.containers [labA, labB] (by decide) (by decide) (by decide) rfl
  ⟨by decide, h.2.2.2.2.2.2 (by decide)⟩

/-- C9, counterexample: the only container carries the lab directory label
`/gone/clab-a/n1`, so the entry derived from the labels is
`(a.yml, /gone/clab-a)`, but that directory does not exist.  `SetLabDir` is
never called, the lab is destroyed with the directory `NewContainerLab`
computed, and cleanup removes that directory, not the container-derived one. -/
theorem destroyFn_missing_labdir_not_overridden :
    toposOf labDirGone.world allCleanup labDirGone.containers =
        [("a.yml", "/gone/clab-a")] ∧
      labDirsSet (destroyFn labDirGone.world allCleanup 0).trace = [] ∧
      destroyCalls (destroyFn labDirGone.world allCleanup 0).trace =
        [{ Name := "a.yml", MgmtBridge := "clab",
           TopoPaths := { labDir := "/cwd/clab-a.yml" } }] ∧
      removedDirs (destroyFn labDirGone.world allCleanup 0).trace = ["/cwd/clab-a.yml"] ∧
      "/gone/clab-a" ∉ removedDirs (destroyFn labDirGone.world allCleanup 0).trace := by
  decide

theorem cleanupNoContainers_world (w : World σ) (cfg : Config) (s : σ)
    (hc : cfg.cleanup = true) :
    (cleanupNoContainers w cfg s).world = worldAfterSearch w cfg s := by
  unfold cleanupNoContainers worldAfterSearch
  rw [if_pos hc, findLabDirs_nil]
  dsimp only
  cases (w.Glob (globPattern w cfg) s).1 <;> rfl

/-- C10, as the code behaves: in single-lab mode with no container found and
`cleanup` set, exactly one glob is issued, the directories removed are the
first match of that glob if any, and the world left is the one these calls
produce; the two lookups are never chained.  With a topology path the pattern
is `clab-*` joined to `filepath.Dir` of the path (the directory of the
topology file, whichever directory that is), and no second glob follows even
when the first matches nothing, in which case nothing is removed.  Without a
topology path it is `clab-*` in the current directory: the guard
`len(labDirs) == 0` is evaluated on the `nil` slice and always passes, so
`findLabDirs` started from `nil` always globs. -/
theorem destroyFn_lab_dir_lookups_exclusive (w : World σ) (cfg : Config) (s : σ)
    (hv : ¬ (cfg.NodeFilter ≠ [] ∧ cfg.cleanup = true)) (ha : cfg.all = false)
    (hc : cfg.cleanup = true)
    (hl : (listContainers w cfg cfg.Topo s).val = ([], none)) :
    globCalls (destroyFn w cfg s).trace = [globPattern w cfg] ∧
      removedDirs (destroyFn w cfg s).trace =
        ((w.Glob (globPattern w cfg) (listContainers w cfg cfg.Topo s).world).1).take 1 ∧
      (destroyFn w cfg s).world =
        worldAfterSearch w cfg (listContainers w cfg cfg.Topo s).world ∧
      (cfg.Topo ≠ "" →
        globPattern w cfg = w.filepathJoin (w.filepathDir cfg.Topo) "clab-*" ∧
        globCalls (destroyFn w cfg s).trace =
          [w.filepathJoin (w.filepathDir cfg.Topo) "clab-*"] ∧
        ((w.Glob (w.filepathJoin (w.filepathDir cfg.Topo) "clab-*")
            (listContainers w cfg cfg.Topo s).world).1 = [] →
          removedDirs (destroyFn w cfg s).trace = [])) ∧
      (cfg.Topo = "" →
        globPattern w cfg = "clab-*" ∧
        globCalls (destroyFn w cfg s).trace = ["clab-*"] ∧
        ∀ s0 : σ, (findLabDirs w cfg [] s0).trace = [Event.Glob "clab-*"] ∧
          (findLabDirs w cfg [] s0).val = (w.Glob "clab-*" s0).1) := by
  rw [destroyFn_single_empty w cfg s hv ha hl]
  dsimp only
  have h := cleanupNoContainers_calls w cfg (listContainers w cfg cfg.Topo s).world hc
  rw [globCalls_append, removedDirs_append, globCalls_listContainers,
    removedDirs_listContainers, h.1, h.2.1, cleanupNoContainers_world w cfg _ hc]
  refine ⟨rfl, rfl, rfl, ?_, ?_⟩
  · intro ht
    have hp : globPattern w cfg = w.filepathJoin (w.filepathDir cfg.Topo) "clab-*" := by
      simp [globPattern, ht]
    rw [hp]
    refine ⟨rfl, rfl, ?_⟩
    intro h0
    rw [h0]; rfl
  · intro ht
    have hp : globPattern w cfg = "clab-*" := by simp [globPattern, ht]
    rw [hp]
    refine ⟨rfl, rfl, ?_⟩
    intro s0
    rw [findLabDirs_nil, hp]
    exact ⟨rfl, rfl⟩

theorem destroyFn_lab_dir_lookups_exclusive_witness :
    globCalls (destroyFn noContainers.world (singleCleanup "/labs/a/a.yml") 0).trace
        = ["/labs/a/clab-*"] ∧
      removedDirs (destroyFn noContainers.world (singleCleanup "/labs/a/a.yml") 0).trace
        = ["clab-x"] ∧
      (destroyFn noContainers.world (singleCleanup "/labs/a/a.yml") 0).world = 4 :=
  have h := destroyFn_lab_dir_lookups_exclusive noContainers.world
    (singleCleanup "/labs/a/a.yml") 0 (by decide) (by decide) (by decide) (by decide)
  ⟨(h.2.2.2.1 (by decide)).2.1, h.2.1, h.2.2.1⟩

/-- C10, counterexample: for the non-empty topology path `a.yml`, Go's
`filepath.Dir` is `.` and `filepath.Join` of `.` and `clab-*` is `clab-*`: the
one glob issued is the glob of the current directory, the same as for an empty
topology path, and the directory `clab-x` it finds there is removed. -/
theorem destroyFn_relative_topology_searches_current_dir :
    singleCleanup "a.yml" ≠ singleCleanup "" ∧
      (singleCleanup "a.yml").Topo ≠ "" ∧
      goDir "a.yml" = "." ∧
      goJoin "." "clab-*" = "clab-*" ∧
      globCalls (destroyFn noContainers.world (singleCleanup "a.yml") 0).trace = ["clab-*"] ∧
      globCalls (destroyFn noContainers.world (singleCleanup "") 0).trace = ["clab-*"] ∧
      removedDirs (destroyFn noContainers.world (singleCleanup "a.yml") 0).trace = ["clab-x"] := by
  decide

end Containerlab
